import Mathlib

/-!  Verification of the OGCR API specification checker
     (`src/tools/spec_checker.py`), via a shallow embedding of its
     document-validation engine in Lean.

     The embedding follows the source function by function:
     `validate_document`, `_detect_document_type`,
     `_validate_ogcr_requirements` and the individual rule checkers,
     plus `validate_file` and `validate_api_endpoint` at the I/O
     boundary.  Python-level dynamic behaviour (truthiness, `in`,
     iteration, `<` on mixed types, `.get` on non-mappings) is modelled
     explicitly; a computation that would raise an uncaught `TypeError`
     or `AttributeError` returns `Except.error`. -/

namespace OGCR

/-- A JSON value, the dynamic document model of the checker
(`Dict[str, Any]` documents and their nested values).  Numbers are
modelled as exact integers: every numeric comparison in the source is an
order comparison against integer bounds, which the model preserves. -/
inductive Json where
  | null : Json
  | bool : Bool → Json
  | num : Int → Json
  | str : String → Json
  | arr : List Json → Json
  | obj : List (String × Json) → Json

/-- A Python exception escaping the checker: the source only lets
`TypeError` and `AttributeError` escape (every `ValueError` it can cause
is caught where raised). -/
inductive PyErr where
  | typeError : PyErr
  | attributeError : PyErr
deriving DecidableEq

/-- Python truthiness of a JSON value (`if x:`). -/
def Json.truthy : Json → Bool
  | .null => false
  | .bool b => b
  | .num n => n != 0
  | .str s => s != ""
  | .arr xs => !xs.isEmpty
  | .obj fs => !fs.isEmpty

/-- `d.get(k, dflt)`: only mappings have `.get`; on any other value the
attribute access raises `AttributeError`. -/
def pyGetD (v : Json) (k : String) (dflt : Json) : Except PyErr Json :=
  match v with
  | .obj fs => .ok ((fs.lookup k).getD dflt)
  | _ => .error .attributeError

/-- Python `repr` of a value (what f-strings use for values inside
containers). -/
def pyRepr : Json → String
  | .null => "None"
  | .bool b => if b then "True" else "False"
  | .num n => toString n
  | .str s => "'" ++ s ++ "'"
  | .arr xs =>
      "[" ++ String.intercalate ", " (xs.attach.map (fun x => pyRepr x.1)) ++ "]"
  | .obj fs =>
      "\x7b" ++
        String.intercalate ", "
          (fs.attach.map (fun p => "'" ++ p.1.1 ++ "': " ++ pyRepr p.1.2)) ++
        "\x7d"
decreasing_by
  · have h := List.sizeOf_lt_of_mem x.2
    simp only [Json.arr.sizeOf_spec]
    omega
  · have h := List.sizeOf_lt_of_mem p.2
    have h2 : sizeOf p.1.2 < sizeOf p.1 := by
      cases p.1 with
      | mk a b => simp [Prod.mk.sizeOf_spec]
    simp only [Json.obj.sizeOf_spec]
    omega

/-- Python `str` of a value (what f-strings use at the top level). -/
def pyStrVal : Json → String
  | .str s => s
  | v => pyRepr v

/-- Whether a JSON value equals a given Python string (`v == "s"`): only
strings compare equal to a string. -/
def isStrVal (v : Json) (s : String) : Bool :=
  match v with
  | .str t => t == s
  | _ => false

/-- Substring containment, the meaning of Python `needle in hay` for
strings. -/
def strContainsSub (hay needle : List Char) : Bool :=
  needle.isEmpty ||
    (decide (needle.length ≤ hay.length) &&
      (List.range (hay.length - needle.length + 1)).any
        (fun i => (hay.drop i).take needle.length == needle))

/-- Python `k in v`: key containment for mappings, element equality for
lists, substring for strings, `TypeError` otherwise. -/
def pyContains (k : String) (v : Json) : Except PyErr Bool :=
  match v with
  | .obj fs => .ok ((fs.lookup k).isSome)
  | .arr xs => .ok (xs.any (fun x => isStrVal x k))
  | .str s => .ok (strContainsSub s.data k.data)
  | _ => .error .typeError

/-- Python iteration (`for x in v`): list elements, mapping keys, string
characters; `TypeError` otherwise. -/
def pyIter : Json → Except PyErr (List Json)
  | .arr xs => .ok xs
  | .obj fs => .ok (fs.map (fun p => Json.str p.1))
  | .str s => .ok (s.data.map (fun c => Json.str (String.mk [c])))
  | _ => .error .typeError

/-- The numeric value of a JSON value for Python comparisons
(`bool` is an `int` subclass: `True == 1`, `False == 0`). -/
def pyNumVal : Json → Option Int
  | .num n => some n
  | .bool b => some (if b then 1 else 0)
  | _ => none

/-- Python `v < 0`: defined for numbers (and bools), `TypeError`
otherwise. -/
def pyLtZero (v : Json) : Except PyErr Bool :=
  match pyNumVal v with
  | some m => .ok (decide (m < 0))
  | none => .error .typeError

/-- Python `a > b` for the value pairs the checker can compare: two
numbers (or bools), or two strings (code-point lexicographic); any other
pair raises `TypeError` (containers are modelled as unorderable — the
checker never orders containers on a non-crashing path). -/
def pyGtJson (a b : Json) : Except PyErr Bool :=
  match pyNumVal a, pyNumVal b with
  | some x, some y => .ok (decide (y < x))
  | _, _ =>
    match a, b with
    | .str x, .str y => .ok (decide (y < x))
    | _, _ => .error .typeError

/-- Python `0 <= v <= 1`: defined for numbers (and bools), `TypeError`
otherwise. -/
def pyInUnitInterval (v : Json) : Except PyErr Bool :=
  match pyNumVal v with
  | some m => .ok (decide (0 ≤ m) && decide (m ≤ 1))
  | none => .error .typeError

/-! ### Character-level parsing helpers

The source delegates to `re`, `datetime.strptime`,
`datetime.fromisoformat` and `urllib.parse.urlparse`; these library
behaviours are embedded below over character lists. -/

/-- Split a character list at every occurrence of `c` (like
`str.split(c)` on a single-character separator). -/
def splitOnChar (c : Char) : List Char → List (List Char)
  | [] => [[]]
  | x :: xs =>
    let r := splitOnChar c xs
    if x = c then [] :: r
    else
      match r with
      | [] => [[x]]
      | h :: t => (x :: h) :: t

/-- Non-empty and all decimal digits (`\d+` over ASCII data). -/
def allDigits (cs : List Char) : Bool := !cs.isEmpty && cs.all Char.isDigit

/-- Numeric value of a digit list. -/
def natOfDigits (cs : List Char) : Nat :=
  cs.foldl (fun n c => n * 10 + (c.toNat - 48)) 0

/-- The pattern `^\d+\.\d+\.\d+$` of `_validate_ogcr_version`. -/
def isSemverThree (s : String) : Bool :=
  match splitOnChar '.' s.data with
  | [a, b, c] => allDigits a && allDigits b && allDigits c
  | _ => false

/-- The pattern `^\d+\.\d+(\.\d+)?$` of the methodology version check. -/
def isMethodologyVersion (s : String) : Bool :=
  match splitOnChar '.' s.data with
  | [a, b] => allDigits a && allDigits b
  | [a, b, c] => allDigits a && allDigits b && allDigits c
  | _ => false

def isLeapYear (y : Nat) : Bool :=
  (y % 4 == 0 && y % 100 != 0) || y % 400 == 0

def daysInMonth (y m : Nat) : Nat :=
  if m == 2 then (if isLeapYear y then 29 else 28)
  else if m == 4 || m == 6 || m == 9 || m == 11 then 30
  else 31

/-- The `ValueError` message of a `strptime` pattern mismatch. -/
def strptimeNoMatchMsg (s : String) : String :=
  "time data '" ++ s ++ "' does not match format '%Y-%m-%d'"

/-- `datetime.strptime(s, '%Y-%m-%d')`: `%Y` is exactly 4 digits, `%m`
and `%d` are 1–2 digits in range, and the day must exist in the month
(year 0 is out of range).  `.ok` carries `y*10000 + m*100 + d`, which is
strictly monotone in the date, so datetime comparisons become `Nat`
comparisons; `.error` carries the `ValueError` message. -/
def strptimeYMD (s : String) : Except String Nat :=
  match splitOnChar '-' s.data with
  | [y, m, d] =>
    if y.length == 4 && allDigits y && allDigits m && decide (m.length ≤ 2)
        && allDigits d && decide (d.length ≤ 2) then
      let yn := natOfDigits y
      let mn := natOfDigits m
      let dn := natOfDigits d
      if 1 ≤ mn && mn ≤ 12 && 1 ≤ dn && dn ≤ 31 then
        if dn ≤ daysInMonth yn mn then
          if 1 ≤ yn then .ok (yn * 10000 + mn * 100 + dn)
          else .error "year 0 is out of range"
        else .error "day is out of range for month"
      else .error (strptimeNoMatchMsg s)
    else .error (strptimeNoMatchMsg s)
  | _ => .error (strptimeNoMatchMsg s)

/-- `creation_date.replace('Z', '+00:00')` over character data. -/
def replaceZChars : List Char → List Char
  | [] => []
  | c :: rest =>
    if c = 'Z' then '+' :: '0' :: '0' :: ':' :: '0' :: '0' :: replaceZChars rest
    else c :: replaceZChars rest

def parseNatFixed (cs : List Char) (len : Nat) : Option Nat :=
  if cs.length == len && cs.all Char.isDigit then some (natOfDigits cs) else none

def isoDateOk (cs : List Char) : Bool :=
  match splitOnChar '-' cs with
  | [y, m, d] =>
    match parseNatFixed y 4, parseNatFixed m 2, parseNatFixed d 2 with
    | some yn, some mn, some dn =>
        1 ≤ yn && 1 ≤ mn && mn ≤ 12 && 1 ≤ dn && dn ≤ daysInMonth yn mn
    | _, _, _ => false
  | _ => false

def isoTimeOk (cs : List Char) : Bool :=
  match splitOnChar ':' cs with
  | [h, m] =>
    match parseNatFixed h 2, parseNatFixed m 2 with
    | some hn, some mn => hn ≤ 23 && mn ≤ 59
    | _, _ => false
  | [h, m, sfrac] =>
    (match parseNatFixed h 2, parseNatFixed m 2 with
     | some hn, some mn => hn ≤ 23 && mn ≤ 59
     | _, _ => false) &&
    (match splitOnChar '.' sfrac with
     | [sec] =>
       match parseNatFixed sec 2 with
       | some sn => sn ≤ 59
       | none => false
     | [sec, frac] =>
       (match parseNatFixed sec 2 with
        | some sn => sn ≤ 59
        | none => false) &&
       allDigits frac && (frac.length == 3 || frac.length == 6)
     | _ => false)
  | _ => false

def isoOffsetOk (cs : List Char) : Bool :=
  match splitOnChar ':' cs with
  | [h, m] =>
    match parseNatFixed h 2, parseNatFixed m 2 with
    | some hn, some mn => hn ≤ 23 && mn ≤ 59
    | _, _ => false
  | _ => false

/-- Split a time-of-day tail at the first `+` or `-` (the UTC-offset
sign). -/
def splitAtSign : List Char → List Char × Option (List Char)
  | [] => ([], none)
  | c :: cs =>
    if c = '+' || c = '-' then ([], some cs)
    else
      let r := splitAtSign cs
      (c :: r.1, r.2)

/-- `datetime.fromisoformat`: `YYYY-MM-DD`, optionally `T` or a space
and `HH:MM[:SS[.fff[fff]]]`, optionally a `±HH:MM` offset. -/
def fromisoformatOkChars (cs : List Char) : Bool :=
  isoDateOk (cs.take 10) &&
    (match cs.drop 10 with
     | [] => true
     | sep :: t =>
       (sep = 'T' || sep = ' ') &&
         (match splitAtSign t with
          | (tc, none) => isoTimeOk tc
          | (tc, some off) => isoTimeOk tc && isoOffsetOk off))

def isSchemeChar (c : Char) : Bool :=
  c.isAlphanum || c = '+' || c = '-' || c = '.'

/-- Split at the first `:`. -/
def splitAtColon : List Char → Option (List Char × List Char)
  | [] => none
  | c :: cs =>
    if c = ':' then some ([], cs)
    else (splitAtColon cs).map (fun p => (c :: p.1, p.2))

/-- `urlparse` scheme recognition: a leading `name:` with an alphabetic
first character and alphanumeric/`+`/`-`/`.` body is the scheme;
otherwise the scheme is empty. -/
def urlSchemeRest (cs : List Char) : List Char × List Char :=
  match splitAtColon cs with
  | some (pre, post) =>
    if !pre.isEmpty && (pre.headD 'a').isAlpha && pre.all isSchemeChar then
      (pre, post)
    else ([], cs)
  | none => ([], cs)

/-- `urlparse` netloc: present only after `//`, up to `/`, `?` or `#`. -/
def netlocOf (cs : List Char) : List Char :=
  match cs with
  | '/' :: '/' :: rest => rest.takeWhile (fun c => c ≠ '/' && c ≠ '?' && c ≠ '#')
  | _ => []

/-- The source's URL test on a string href: `urlparse` succeeds with a
non-empty scheme and netloc.  An unbalanced `[`/`]` in the netloc makes
`urlparse` raise `ValueError`; the source catches it and reports the
same error, so it is folded into "not ok" here. -/
def urlparseOk (s : String) : Bool :=
  let p := urlSchemeRest s.data
  let nl := netlocOf p.2
  !p.1.isEmpty && !nl.isEmpty &&
    !(nl.contains '[' ^^ nl.contains ']')

/-! ### The structural (JSON-schema) layer

The schema files `pdd-schema.json` and `mrv-schema.json` are not part of
`src/`, and the structural conformance check is the external
`jsonschema` library.  Modelled from the spec: a Schema is "an immutable
structural contract (JSON Schema semantics: required fields, types,
patterns, enumerations, numeric bounds)"; the subset needed by the
claims is required top-level fields and per-field type constraints
(the spec's golden test expects a `links` type mismatch to produce an
"is not of type 'array'" message). -/

inductive SchemaType where
  | object : SchemaType
  | array : SchemaType
  | string : SchemaType
  | number : SchemaType

def SchemaType.typeName : SchemaType → String
  | .object => "object"
  | .array => "array"
  | .string => "string"
  | .number => "number"

def SchemaType.accepts : SchemaType → Json → Bool
  | .object, .obj _ => true
  | .array, .arr _ => true
  | .string, .str _ => true
  | .number, .num _ => true
  | _, _ => false

/-- One violation from the structural-conformance check: the
human-readable message and the field path (`e.message` / `e.path`). -/
structure SchemaViolation where
  message : String
  path : List String

/-- Modelled from the spec: a structural schema, "required fields" plus
per-field "types". -/
structure Schema where
  requiredFields : List String
  propertyTypes : List (String × SchemaType)

/-- Modelled from the spec: the `jsonschema` library's `iter_errors` —
every violation of the schema by the document, in a deterministic
engine order (missing required fields first, then per-field type
mismatches in schema order). -/
def jsonschema_iter_errors (s : Schema) (doc : Json) : List SchemaViolation :=
  match doc with
  | .obj fs =>
    (s.requiredFields.filter (fun r => (fs.lookup r).isNone)).map
      (fun r => ⟨"'" ++ r ++ "' is a required property", []⟩) ++
    s.propertyTypes.filterMap (fun p =>
      match fs.lookup p.1 with
      | some v =>
        if p.2.accepts v then none
        else some ⟨pyRepr v ++ " is not of type '" ++ p.2.typeName ++ "'", [p.1]⟩
      | none => none)
  | other => [⟨pyRepr other ++ " is not of type 'object'", []⟩]

/-- `jsonschema.validate` raises at most one `ValidationError` per
call: the first violation. -/
def jsonschema_first_error (s : Schema) (doc : Json) : Option SchemaViolation :=
  (jsonschema_iter_errors s doc).head?

/-- How `validate_document` renders the one caught `ValidationError`:
the message line, then — when `e.path` is non-empty — a `->`-joined
path line. -/
def renderViolation (v : SchemaViolation) : List String :=
  ("Schema validation error: " ++ v.message) ::
    (if v.path.isEmpty then [] else ["  Path: " ++ String.intercalate " -> " v.path])

/-- The structural phase of `validate_document`: the
`try/except jsonschema.ValidationError` block (the modelled schemas are
well-formed, so the `SchemaError` branch cannot fire). -/
def schemaErrorLines (s : Schema) (doc : Json) : List String :=
  match jsonschema_first_error s doc with
  | none => []
  | some v => renderViolation v

/-- Modelled from the spec: the loaded `pdd-schema.json` — the valid
PDD document of the spec's golden tests must pass it, `links` is typed
as an array. -/
def pddSchema : Schema :=
  ⟨["type", "ogcr_version", "geometry", "properties"],
   [("geometry", .object), ("properties", .object), ("links", .array)]⟩

/-- Modelled from the spec: the loaded `mrv-schema.json`. -/
def mrvSchema : Schema :=
  ⟨["type", "ogcr_version", "geometry", "properties"],
   [("geometry", .object), ("properties", .object), ("links", .array)]⟩

/-- The schema store after `load_schemas()` found both schema files. -/
def schemas0 : List (String × Schema) := [("pdd", pddSchema), ("mrv", mrvSchema)]

/-! ### The semantic rule checkers -/

/-- The 6-member geometry type enumeration (`valid_types`). -/
def validGeometryType (v : Json) : Bool :=
  match v with
  | .str s =>
      s == "Point" || s == "LineString" || s == "Polygon" ||
      s == "MultiPoint" || s == "MultiLineString" || s == "MultiPolygon"
  | _ => false

/-- `isinstance(x, (int, float))`; Python `bool` is an `int` subclass. -/
def isNumberLike : Json → Bool
  | .num _ => true
  | .bool _ => true
  | _ => false

/-- The bbox block of `_validate_geojson_compliance` (never raises:
every branch is `isinstance`-guarded). -/
def bbox_errors (bbox : Json) : List String :=
  match bbox with
  | .null => []
  | .arr xs =>
    if xs.length != 4 then ["bbox must be an array of 4 numbers"]
    else if xs.all isNumberLike then []
    else ["bbox values must be numbers"]
  | _ => ["bbox must be an array of 4 numbers"]

/-- The geometry block of `_validate_geojson_compliance`: falsy
geometry (absent, `None`, `{}` …) is "missing"; then `'type' in g and
'coordinates' in g`; then the enumeration check. -/
def geometry_errors (geometry : Json) : Except PyErr (List String) :=
  if !geometry.truthy then .ok ["Missing required geometry field"]
  else do
    let hasT ← pyContains "type" geometry
    let hasC ← pyContains "coordinates" geometry
    if !hasT || !hasC then pure ["Invalid geometry structure"]
    else do
      let gt ← pyGetD geometry "type" .null
      pure (if validGeometryType gt then []
            else ["Invalid geometry type: " ++ pyStrVal gt])

/-- `_validate_geojson_compliance` on the three top-level fields it
reads. -/
def geojson_logic (t geometry bbox : Json) : Except PyErr (List String) := do
  let e1 := if isStrVal t "Feature" then [] else ["Document must be a GeoJSON Feature"]
  let e2 ← geometry_errors geometry
  pure (e1 ++ e2 ++ bbox_errors bbox)

def _validate_geojson_compliance (document : Json) : Except PyErr (List String) := do
  let t ← pyGetD document "type" .null
  let g ← pyGetD document "geometry" .null
  let b ← pyGetD document "bbox" .null
  geojson_logic t g b

/-- `_validate_ogcr_version` on the field it reads: falsy version is
"missing"; `re.match` on a non-string raises `TypeError`. -/
def version_logic (version : Json) : Except PyErr (List String) :=
  if !version.truthy then .ok ["Missing ogcr_version field"]
  else
    match version with
    | .str s =>
      .ok (if isSemverThree s then []
           else ["Invalid ogcr_version format: " ++ s ++ " (must be semantic version)"])
    | _ => .error .typeError

def _validate_ogcr_version (document : Json) : Except PyErr (List String) := do
  let v ← pyGetD document "ogcr_version" .null
  version_logic v

/-- The per-element body of the `_validate_links` loop (total: the
`urlparse` call sits in a `try/except Exception`, so a non-string or
malformed href becomes the same "not a valid URL" error). -/
def link_item_errors (i : Nat) (link : Json) : List String :=
  match link with
  | .obj fs =>
    (if (fs.lookup "rel").isSome then []
     else ["Link " ++ toString i ++ " missing required 'rel' field"]) ++
    (if (fs.lookup "href").isSome then []
     else ["Link " ++ toString i ++ " missing required 'href' field"]) ++
    (let href := (fs.lookup "href").getD .null
     if href.truthy then
       (if (match href with | .str h => urlparseOk h | _ => false) then []
        else ["Link " ++ toString i ++ " href is not a valid URL: " ++ pyStrVal href])
     else [])
  | _ => ["Link " ++ toString i ++ " must be an object"]

/-- `_validate_links` on the field it reads: a falsy `links` is
skipped; otherwise `enumerate(links)` iterates Python-style (an object
yields its keys, a string its characters). -/
def links_logic (links : Json) : Except PyErr (List String) :=
  if !links.truthy then .ok []
  else do
    let items ← pyIter links
    pure ((items.enum.map (fun p => link_item_errors p.1 p.2)).flatten)

def _validate_links (document : Json) : Except PyErr (List String) := do
  let l ← pyGetD document "links" (.arr [])
  links_logic l

/-- The creation-date block of `_validate_pdd_specific`:
`creation_date.replace` on a non-string raises `AttributeError`; the
`fromisoformat` `ValueError` is caught. -/
def pdd_creation_errors (creation : Json) : Except PyErr (List String) :=
  if creation.truthy then
    match creation with
    | .str s =>
      .ok (if fromisoformatOkChars (replaceZChars s.data) then []
           else ["Invalid creation_date format: " ++ s])
    | _ => .error .attributeError
  else .ok []

/-- The version-format part of the methodology block:
`if version and not re.match(...)` — `re.match` on a non-string raises
`TypeError`. -/
def methodology_version_errors (v : Json) : Except PyErr (List String) :=
  if v.truthy then
    match v with
    | .str vs =>
      .ok (if isMethodologyVersion vs then []
           else ["Invalid methodology version format: " ++ vs])
    | _ => .error .typeError
  else .ok []

/-- The methodology block of `_validate_pdd_specific`. -/
def pdd_methodology_errors (methodology : Json) : Except PyErr (List String) :=
  if methodology.truthy then
    match methodology with
    | .obj ms => do
      let e1 := if (ms.lookup "id").isSome then []
        else ["Methodology missing required 'id' field"]
      let e2 := if (ms.lookup "version").isSome then []
        else ["Methodology missing required 'version' field"]
      let e3 ← methodology_version_errors ((ms.lookup "version").getD .null)
      pure (e1 ++ e2 ++ e3)
    | _ => .ok ["Methodology must be an object"]
  else .ok []

/-- The expected-annual-benefit block of `_validate_pdd_specific`:
`benefit is not None and benefit < 0` — `<` on a non-number raises
`TypeError`. -/
def pdd_benefit_errors (benefit : Json) : Except PyErr (List String) :=
  match benefit with
  | .null => .ok []
  | v => do
    let lt ← pyLtZero v
    pure (if lt then ["expected_annual_benefit must be non-negative"] else [])

/-- `_validate_pdd_specific` on the `properties` value (each field is
fetched with `properties.get`, which raises on a non-mapping). -/
def pdd_props_logic (properties : Json) : Except PyErr (List String) := do
  let c ← pyGetD properties "creation_date" .null
  let d1 ← pdd_creation_errors c
  let m ← pyGetD properties "methodology" .null
  let d2 ← pdd_methodology_errors m
  let b ← pyGetD properties "expected_annual_benefit" .null
  let d3 ← pdd_benefit_errors b
  pure (d1 ++ d2 ++ d3)

def _validate_pdd_specific (document : Json) : Except PyErr (List String) := do
  let p ← pyGetD document "properties" (.obj [])
  pdd_props_logic p

/-- The date-range check on two date strings, in the source's
evaluation order: parse `start_date` (a failure is reported and stops
the block), then `end_date`, then compare `start >= end`. -/
def date_range_errors (ss es : String) : List String :=
  match strptimeYMD ss with
  | .error m => ["Invalid date format: " ++ m]
  | .ok ks =>
    match strptimeYMD es with
    | .error m => ["Invalid date format: " ++ m]
    | .ok ke => if ke ≤ ks then ["start_date must be before end_date"] else []

/-- The date-range block of `_validate_mrv_specific`: both dates truthy
→ `strptime` each (a `ValueError` is caught and reported, a `TypeError`
from a non-string escapes), then `start >= end`.  `strptime` is applied
to `start_date` first, so a non-string `end_date` only raises when
`start_date` parsed. -/
def mrv_date_errors (startD endD : Json) : Except PyErr (List String) :=
  if startD.truthy && endD.truthy then
    match startD, endD with
    | .str ss, .str es => .ok (date_range_errors ss es)
    | .str ss, _ =>
      match strptimeYMD ss with
      | .error m => .ok ["Invalid date format: " ++ m]
      | .ok _ => .error .typeError
    | _, _ => .error .typeError
  else .ok []

def validCarbonUnits : List String := ["tCO2e", "kgCO2e", "tCO2", "kgCO2"]

/-- The f-string rendering of the `valid_units` Python list. -/
def validCarbonUnitsRepr : String := "['tCO2e', 'kgCO2e', 'tCO2', 'kgCO2']"

/-- The value part of the estimate block:
`value is not None and value < 0`. -/
def estimate_value_errors (v : Json) : Except PyErr (List String) :=
  match v with
  | .null => .ok []
  | w => do
    let lt ← pyLtZero w
    pure (if lt then ["net_removal_estimate value must be non-negative"] else [])

/-- The unit part of the estimate block:
`unit and unit not in valid_units` (never raises). -/
def estimate_unit_errors (u : Json) : List String :=
  if u.truthy && !(validCarbonUnits.any (fun c => isStrVal u c)) then
    ["Invalid unit: " ++ pyStrVal u ++ " (must be one of " ++ validCarbonUnitsRepr ++ ")"]
  else []

/-- The net-removal-estimate block of `_validate_mrv_specific`. -/
def mrv_estimate_errors (estimate : Json) : Except PyErr (List String) :=
  if estimate.truthy then
    match estimate with
    | .obj es => do
      let e1 ← estimate_value_errors ((es.lookup "value").getD .null)
      pure (e1 ++ estimate_unit_errors ((es.lookup "unit").getD .null))
    | _ => .ok ["net_removal_estimate must be an object"]
  else .ok []

/-- The min/max part of the total-uncertainty block:
`min_val is not None and max_val is not None and min_val > max_val`. -/
def uncertainty_range_errors (mn mx : Json) : Except PyErr (List String) :=
  match mn, mx with
  | .null, _ => .ok []
  | _, .null => .ok []
  | a, b => do
    let gt ← pyGtJson a b
    pure (if gt then ["uncertainty min must be <= max"] else [])

/-- The confidence-level part of the total-uncertainty block:
`confidence is not None and not (0 <= confidence <= 1)`. -/
def uncertainty_confidence_errors (c : Json) : Except PyErr (List String) :=
  match c with
  | .null => .ok []
  | v => do
    let inI ← pyInUnitInterval v
    pure (if inI then [] else ["confidence_level must be between 0 and 1"])

/-- The total-uncertainty block of `_validate_mrv_specific`. -/
def mrv_uncertainty_errors (u : Json) : Except PyErr (List String) :=
  if u.truthy then
    match u with
    | .obj us => do
      let e1 ← uncertainty_range_errors ((us.lookup "min").getD .null)
        ((us.lookup "max").getD .null)
      let e2 ← uncertainty_confidence_errors ((us.lookup "confidence_level").getD .null)
      pure (e1 ++ e2)
    | _ => .ok ["total_uncertainty must be an object"]
  else .ok []

/-- `_validate_mrv_specific` on the `properties` value. -/
def mrv_props_logic (properties : Json) : Except PyErr (List String) := do
  let s ← pyGetD properties "start_date" .null
  let e ← pyGetD properties "end_date" .null
  let d1 ← mrv_date_errors s e
  let est ← pyGetD properties "net_removal_estimate" .null
  let d2 ← mrv_estimate_errors est
  let unc ← pyGetD properties "total_uncertainty" .null
  let d3 ← mrv_uncertainty_errors unc
  pure (d1 ++ d2 ++ d3)

def _validate_mrv_specific (document : Json) : Except PyErr (List String) := do
  let p ← pyGetD document "properties" (.obj [])
  mrv_props_logic p

/-! ### Detection and orchestration -/

/-- The fallback of `_detect_document_type`: inspect
`document.properties` for the discriminating keys. -/
def detect_fallback (properties : Json) : Except PyErr String := do
  let hasPT ← pyContains "project_type" properties
  if hasPT then pure "pdd"
  else do
    let hasMD ← pyContains "methodology_data" properties
    if hasMD then pure "mrv" else pure "unknown"

def _detect_document_type (document : Json) : Except PyErr String := do
  let profile ← pyGetD document "profile" (.str "")
  if isStrVal profile "pdd" then pure "pdd"
  else if isStrVal profile "mrv" then pure "mrv"
  else do
    let properties ← pyGetD document "properties" (.obj [])
    detect_fallback properties

/-- The `if doc_type == 'pdd' / elif == 'mrv'` dispatch of
`_validate_ogcr_requirements`. -/
def profile_specific_errors (docType : String) (document : Json) :
    Except PyErr (List String) :=
  if docType == "pdd" then _validate_pdd_specific document
  else if docType == "mrv" then _validate_mrv_specific document
  else .ok []

/-- `_validate_ogcr_requirements`: the fixed checker pipeline, errors
concatenated in checker order. -/
def _validate_ogcr_requirements (document : Json) (docType : String) :
    Except PyErr (List String) := do
  let g ← _validate_geojson_compliance document
  let v ← _validate_ogcr_version document
  let l ← _validate_links document
  let p ← profile_specific_errors docType document
  pure (g ++ v ++ l ++ p)

/-- Profile resolution at the head of `validate_document`: the explicit
argument, or auto-detection. -/
def resolve_doc_type (document : Json) (docType? : Option String) :
    Except PyErr String :=
  match docType? with
  | some t => .ok t
  | none => _detect_document_type document

/-- `OGCRSpecChecker.validate_document`: resolve the profile, bail out
with a single error when no schema is loaded for it, otherwise run the
structural phase and the semantic pipeline and return
`(len(errors) == 0, errors)`. -/
def validate_document (schemas : List (String × Schema)) (document : Json)
    (docType? : Option String) : Except PyErr (Bool × List String) := do
  let dt ← resolve_doc_type document docType?
  match schemas.lookup dt with
  | none => pure (false, ["Unknown document type: " ++ dt])
  | some schema =>
    let structural := schemaErrorLines schema document
    let additional ← _validate_ogcr_requirements document dt
    let errors := structural ++ additional
    pure (errors.isEmpty, errors)

/-! ### The file and API boundaries -/

/-- The outcome of `open` + `json.load` in `validate_file` — the
boundary with the filesystem and the `json` library. -/
inductive FileReadResult where
  | notFound (path : String)
  | badJson (msg : String)
  | parsed (document : Json)

/-- The text a Python exception renders to inside the catch-all
`except Exception` message (abstracted). -/
def pyErrText : PyErr → String
  | .typeError => "TypeError"
  | .attributeError => "AttributeError"

/-- `OGCRSpecChecker.validate_file`: maps file-not-found and JSON parse
failure to dedicated errors; its `except Exception` also catches
everything `validate_document` raises, so it always returns a result. -/
def validate_file (schemas : List (String × Schema)) (input : FileReadResult) :
    Bool × List String :=
  match input with
  | .notFound p => (false, ["File not found: " ++ p])
  | .badJson m => (false, ["Invalid JSON: " ++ m])
  | .parsed doc =>
    match validate_document schemas doc none with
    | .ok r => r
    | .error e => (false, ["Error reading file: " ++ pyErrText e])

/-- The body of an HTTP response in `validate_api_endpoint`. -/
inductive ApiBody where
  | notJson : ApiBody
  | jsonData (data : Json)

/-- The outcome of `requests.get` — the boundary with the network. -/
inductive ApiResponse where
  | requestError (msg : String)
  | httpResponse (status : Nat) (reason : String) (body : ApiBody)

/-- One iteration of the `for i, item in enumerate(data['data'])` loop
of `validate_api_endpoint`: a Feature-shaped mapping is validated and
its errors prefixed with the item index; anything else contributes
nothing. -/
def validate_one_item (schemas : List (String × Schema)) (i : Nat) (item : Json) :
    Except PyErr (Bool × List String) :=
  match item with
  | .obj ifs =>
    if isStrVal ((ifs.lookup "type").getD .null) "Feature" then do
      let r ← validate_document schemas item none
      pure (if r.1 then (true, ([] : List String))
            else (false, r.2.map (fun err => "Item " ++ toString i ++ ": " ++ err)))
    else pure (true, ([] : List String))
  | _ => pure (true, ([] : List String))

/-- The whole loop: `all_valid` is the conjunction, errors accumulate
in item order. -/
def validate_data_items (schemas : List (String × Schema)) :
    List (Nat × Json) → Except PyErr (Bool × List String)
  | [] => .ok (true, [])
  | (i, item) :: rest => do
    let head ← validate_one_item schemas i item
    let tail ← validate_data_items schemas rest
    pure (head.1 && tail.1, head.2 ++ tail.2)

/-- `OGCRSpecChecker.validate_api_endpoint` past the request: non-200
is a failure, a non-JSON body is a failure, a Feature body is validated
directly, a `data`-list body is validated item-wise, anything else is
trivially valid.  Only `requests.RequestException` is caught, so
`TypeError`s from the loop or the validator escape. -/
def validate_api_endpoint (schemas : List (String × Schema)) (resp : ApiResponse) :
    Except PyErr (Bool × List String) :=
  match resp with
  | .requestError m => .ok (false, ["Request error: " ++ m])
  | .httpResponse status reason body =>
    if status != 200 then .ok (false, ["HTTP " ++ toString status ++ ": " ++ reason])
    else
      match body with
      | .notJson => .ok (false, ["Response is not valid JSON"])
      | .jsonData data =>
        match data with
        | .obj fs =>
          if isStrVal ((fs.lookup "type").getD .null) "Feature" then
            validate_document schemas data none
          else
            match fs.lookup "data" with
            | some dv => do
              let items ← pyIter dv
              validate_data_items schemas items.enum
            | none => .ok (true, [])
        | _ => .ok (true, [])

/-! ### The state-threaded view of `validate_document`

The Python checker receives the document object by reference; to state
that validation leaves it unchanged, the same translation is repeated
with the document threaded as explicit state.  Every access the source
makes to the document object itself is a `document.get(...)` (or the
whole-document read by `jsonschema.validate`); each is a primitive of
the state monad below, and everything downstream of the fetched values
is the shared pure logic. -/

abbrev DocState (α : Type) := StateT Json (Except PyErr) α

/-- `document.get(k, dflt)` as a state-monad primitive. -/
def stGet (k : String) (dflt : Json) : DocState Json := fun d =>
  match d with
  | .obj fs => .ok (((fs.lookup k).getD dflt), .obj fs)
  | _ => .error .attributeError

def geojson_st : DocState (List String) := do
  let t ← stGet "type" .null
  let g ← stGet "geometry" .null
  let b ← stGet "bbox" .null
  StateT.lift (geojson_logic t g b)

def version_st : DocState (List String) := do
  let v ← stGet "ogcr_version" .null
  StateT.lift (version_logic v)

def links_st : DocState (List String) := do
  let l ← stGet "links" (.arr [])
  StateT.lift (links_logic l)

def pdd_st : DocState (List String) := do
  let p ← stGet "properties" (.obj [])
  StateT.lift (pdd_props_logic p)

def mrv_st : DocState (List String) := do
  let p ← stGet "properties" (.obj [])
  StateT.lift (mrv_props_logic p)

def detect_st : DocState String := do
  let profile ← stGet "profile" (.str "")
  if isStrVal profile "pdd" then pure "pdd"
  else if isStrVal profile "mrv" then pure "mrv"
  else do
    let properties ← stGet "properties" (.obj [])
    StateT.lift (detect_fallback properties)

def profile_specific_st (docType : String) : DocState (List String) :=
  if docType == "pdd" then pdd_st
  else if docType == "mrv" then mrv_st
  else pure []

def requirements_st (docType : String) : DocState (List String) := do
  let g ← geojson_st
  let v ← version_st
  let l ← links_st
  let p ← profile_specific_st docType
  pure (g ++ v ++ l ++ p)

/-- `validate_document` with the document as explicit state:
`jsonschema.validate` reads the whole document (`get`), every other
document access goes through `stGet`. -/
def validate_document_st (schemas : List (String × Schema))
    (docType? : Option String) : DocState (Bool × List String) := do
  let dt ← (match docType? with | some t => pure t | none => detect_st)
  match schemas.lookup dt with
  | none => pure (false, ["Unknown document type: " ++ dt])
  | some schema => do
    let d ← get
    let structural := schemaErrorLines schema d
    let additional ← requirements_st dt
    let errors := structural ++ additional
    pure (errors.isEmpty, errors)

/-- A state-monad computation over the document that, whenever it
returns, returns the document value unchanged. -/
def PreservesDoc {α : Type} (m : DocState α) : Prop :=
  ∀ d r d', m d = .ok (r, d') → d' = d

/-! ### Well-typedness of a document's inspected fields

`validate_document` raises (rather than reporting) when an inspected
field has a value its Python code cannot operate on; this predicate
carves out the documents on which every operation is defined. -/

/-- Absent, `null`, a number or a bool (safe for `is not None`-guarded
comparisons). -/
def nullOrNumeric (v : Json) : Bool :=
  match v with
  | .null => true
  | .num _ => true
  | .bool _ => true
  | _ => false

/-- Falsy (skipped by an `if x:` guard) or a string. -/
def strOrFalsy (v : Json) : Bool :=
  !v.truthy || (match v with | .str _ => true | _ => false)

def wellTypedProps (ps : List (String × Json)) : Bool :=
  strOrFalsy ((ps.lookup "creation_date").getD .null) &&
  (match (ps.lookup "methodology").getD .null with
   | .obj ms => strOrFalsy ((ms.lookup "version").getD .null)
   | _ => true) &&
  nullOrNumeric ((ps.lookup "expected_annual_benefit").getD .null) &&
  (let s := (ps.lookup "start_date").getD .null
   let e := (ps.lookup "end_date").getD .null
   !(s.truthy && e.truthy) ||
     (match s, e with | .str _, .str _ => true | _, _ => false)) &&
  (match (ps.lookup "net_removal_estimate").getD .null with
   | .obj es => nullOrNumeric ((es.lookup "value").getD .null)
   | _ => true) &&
  (match (ps.lookup "total_uncertainty").getD .null with
   | .obj us =>
     (match (us.lookup "min").getD .null, (us.lookup "max").getD .null with
      | .null, _ => true
      | _, .null => true
      | a, b => nullOrNumeric a && nullOrNumeric b) &&
     nullOrNumeric ((us.lookup "confidence_level").getD .null)
   | _ => true)

/-- Every field `validate_document` inspects has a shape its code can
operate on: geometry falsy or a mapping, version falsy or a string,
links falsy or an array, properties absent or a mapping whose inspected
members are in turn well-typed. -/
def wellTypedDoc (fs : List (String × Json)) : Bool :=
  (let g := (fs.lookup "geometry").getD .null
   !g.truthy || (match g with | .obj _ => true | _ => false)) &&
  strOrFalsy ((fs.lookup "ogcr_version").getD .null) &&
  (let l := (fs.lookup "links").getD (.arr [])
   !l.truthy || (match l with | .arr _ => true | _ => false)) &&
  (match fs.lookup "properties" with
   | none => true
   | some (.obj ps) => wellTypedProps ps
   | some _ => false)

/-- The profile-detection function exactly as the spec words it
("pure function"): match the `profile` field, else look for the
discriminating keys of the `properties` mapping, else `unknown`.
A non-mapping `properties` has no keys, so it falls to `unknown`. -/
def detectSpecFn (fs : List (String × Json)) : String :=
  if isStrVal (((fs.lookup "profile").getD (.str ""))) "pdd" then "pdd"
  else if isStrVal (((fs.lookup "profile").getD (.str ""))) "mrv" then "mrv"
  else
    match (fs.lookup "properties").getD (.obj []) with
    | .obj ps =>
      if (ps.lookup "project_type").isSome then "pdd"
      else if (ps.lookup "methodology_data").isSome then "mrv"
      else "unknown"
    | _ => "unknown"

/-- Whether `s` begins with the characters `pre` (a kernel-computable
prefix test). -/
def strHeadIs (pre : List Char) (s : String) : Bool := s.data.take pre.length == pre

/-- Whether an `Except` computation returned normally. -/
def exceptOk {ε α : Type} : Except ε α → Bool
  | .ok _ => true
  | .error _ => false

/-- The cross-field date-ordering error of the MRV checker. -/
def dateOrderMsg : String := "start_date must be before end_date"

/-! ### Concrete documents (from the repository's test fixtures) -/

/-- The valid PDD document of the repository's test suite
(`test_spec_checker.py`, `valid_pdd`). -/
def validPddFields : List (String × Json) :=
  [("type", .str "Feature"),
   ("id", .str "test_project"),
   ("ogcr_version", .str "0.1.0"),
   ("profile", .str "pdd"),
   ("geometry", .obj [("type", .str "Polygon"),
      ("coordinates", .arr [.arr [.arr [.num 0, .num 0], .arr [.num 1, .num 0],
        .arr [.num 1, .num 1], .arr [.num 0, .num 1], .arr [.num 0, .num 0]]])]),
   ("properties", .obj [("name", .str "Test Project"),
      ("creation_date", .str "2024-12-07T10:00:00Z"),
      ("project_type", .str "afforestation"),
      ("status", .str "draft"),
      ("actor_id", .str "test-actor")])]

def validPddDoc : Json := .obj validPddFields

/-- A PDD document invalid in one way per semantic checker (used to
exhibit the deterministic error order). -/
def multiErrorPddFields : List (String × Json) :=
  [("type", .str "Feature"),
   ("ogcr_version", .str "abc"),
   ("profile", .str "pdd"),
   ("geometry", .obj [("type", .str "Circle"), ("coordinates", .arr [])]),
   ("properties", .obj [("expected_annual_benefit", .num (-5))]),
   ("links", .arr [.obj []])]

/-- MRV properties whose start date falls after the end date. -/
def lateDatesProps : List (String × Json) :=
  [("start_date", .str "2024-12-31"), ("end_date", .str "2024-01-01")]

def lateDatesFields : List (String × Json) := [("properties", .obj lateDatesProps)]

/-! ### Lemmas: state preservation -/

theorem preservesDoc_pure {α : Type} (a : α) : PreservesDoc (pure a : DocState α) := by
  intro d r d' h
  simp only [pure, StateT.pure, Except.pure] at h
  injection h with h2
  injection h2 with ha hd
  exact hd.symm

theorem preservesDoc_bind {α β : Type} {m : DocState α} {f : α → DocState β}
    (hm : PreservesDoc m) (hf : ∀ a, PreservesDoc (f a)) :
    PreservesDoc (m >>= f) := by
  intro d r d' h
  simp only [bind, StateT.bind] at h
  cases hmd : m d with
  | error e =>
    rw [hmd] at h
    simp only [Except.bind] at h
    exact absurd h (by intro hc; cases hc)
  | ok p =>
    obtain ⟨a, s'⟩ := p
    rw [hmd] at h
    simp only [Except.bind] at h
    have hs : s' = d := hm d a s' hmd
    have hd : d' = s' := hf a s' r d' h
    exact hd.trans hs

theorem preservesDoc_lift {α : Type} (e : Except PyErr α) :
    PreservesDoc (StateT.lift e : DocState α) := by
  intro d r d' h
  simp only [StateT.lift] at h
  cases e with
  | error _ =>
    simp only [bind, Except.bind] at h
    exact absurd h (by intro hc; cases hc)
  | ok a =>
    simp only [bind, Except.bind, pure, Except.pure] at h
    injection h with h2
    injection h2 with ha hd
    exact hd.symm

theorem preservesDoc_stGet (k : String) (dflt : Json) :
    PreservesDoc (stGet k dflt) := by
  intro d r d' h
  cases d with
  | obj fs =>
    simp only [stGet] at h
    injection h with h2
    injection h2 with ha hd
    exact hd.symm
  | null => exact absurd h (by intro hc; cases hc)
  | bool b => exact absurd h (by intro hc; cases hc)
  | num n => exact absurd h (by intro hc; cases hc)
  | str s => exact absurd h (by intro hc; cases hc)
  | arr xs => exact absurd h (by intro hc; cases hc)

theorem preservesDoc_get : PreservesDoc (get : DocState Json) := by
  intro d r d' h
  simp only [get, getThe, MonadStateOf.get, StateT.get, pure, Except.pure] at h
  injection h with h2
  injection h2 with ha hd
  exact hd.symm

theorem preservesDoc_geojson : PreservesDoc geojson_st := by
  apply preservesDoc_bind (preservesDoc_stGet _ _)
  intro t
  apply preservesDoc_bind (preservesDoc_stGet _ _)
  intro g
  apply preservesDoc_bind (preservesDoc_stGet _ _)
  intro b
  exact preservesDoc_lift _

theorem preservesDoc_version : PreservesDoc version_st := by
  apply preservesDoc_bind (preservesDoc_stGet _ _)
  intro v
  exact preservesDoc_lift _

theorem preservesDoc_links : PreservesDoc links_st := by
  apply preservesDoc_bind (preservesDoc_stGet _ _)
  intro l
  exact preservesDoc_lift _

theorem preservesDoc_pdd : PreservesDoc pdd_st := by
  apply preservesDoc_bind (preservesDoc_stGet _ _)
  intro p
  exact preservesDoc_lift _

theorem preservesDoc_mrv : PreservesDoc mrv_st := by
  apply preservesDoc_bind (preservesDoc_stGet _ _)
  intro p
  exact preservesDoc_lift _

theorem preservesDoc_detect : PreservesDoc detect_st := by
  apply preservesDoc_bind (preservesDoc_stGet _ _)
  intro profile
  split
  · exact preservesDoc_pure _
  split
  · exact preservesDoc_pure _
  · apply preservesDoc_bind (preservesDoc_stGet _ _)
    intro properties
    exact preservesDoc_lift _

theorem preservesDoc_profile_specific (docType : String) :
    PreservesDoc (profile_specific_st docType) := by
  unfold profile_specific_st
  split
  · exact preservesDoc_pdd
  split
  · exact preservesDoc_mrv
  · exact preservesDoc_pure _

theorem preservesDoc_requirements (docType : String) :
    PreservesDoc (requirements_st docType) := by
  apply preservesDoc_bind preservesDoc_geojson
  intro g
  apply preservesDoc_bind preservesDoc_version
  intro v
  apply preservesDoc_bind preservesDoc_links
  intro l
  apply preservesDoc_bind (preservesDoc_profile_specific docType)
  intro p
  exact preservesDoc_pure _

theorem preservesDoc_validate_document (schemas : List (String × Schema))
    (docType? : Option String) : PreservesDoc (validate_document_st schemas docType?) := by
  unfold validate_document_st
  apply preservesDoc_bind
  · cases docType? with
    | some t => exact preservesDoc_pure _
    | none => exact preservesDoc_detect
  intro dt
  cases schemas.lookup dt with
  | none => exact preservesDoc_pure _
  | some schema =>
    apply preservesDoc_bind preservesDoc_get
    intro d
    apply preservesDoc_bind (preservesDoc_requirements dt)
    intro additional
    exact preservesDoc_pure _

/-! ### Lemmas: strings -/

theorem dataAppend (a b : String) : (a ++ b).data = a.data ++ b.data := by
  cases a
  cases b
  rfl

/-- A string starting with one character never equals a literal starting
with a different one. -/
theorem string_append_ne_lit (p s lit : String) (c c' : Char)
    (hp : p.data.head? = some c) (hl : lit.data.head? = some c') (hne : c ≠ c') :
    p ++ s ≠ lit := by
  intro h
  have h2 : (p ++ s).data.head? = lit.data.head? := by rw [h]
  rw [dataAppend] at h2
  cases hd : p.data with
  | nil => rw [hd] at hp; cases hp
  | cons x xs =>
    rw [hd] at hp h2
    simp only [List.cons_append, List.head?_cons] at h2 hp
    injection hp with hpc
    rw [hl] at h2
    injection h2 with h3
    exact hne (hpc ▸ h3)

/-! ### Lemmas: Except plumbing -/

theorem exceptBind_ok {ε α β : Type} (a : α) (f : α → Except ε β) :
    (Except.ok a : Except ε α) >>= f = f a := rfl

theorem exceptBind_error {ε α β : Type} (e : ε) (f : α → Except ε β) :
    (Except.error e : Except ε α) >>= f = .error e := rfl

theorem exceptPure_eq {ε α : Type} (a : α) : (pure a : Except ε α) = .ok a := rfl

theorem exceptOk_exists {ε α : Type} {x : Except ε α} (h : exceptOk x = true) :
    ∃ a, x = .ok a := by
  cases x with
  | ok a => exact ⟨a, rfl⟩
  | error e => exact absurd h (by simp [exceptOk])

/-! ### Lemmas: shape of `validate_document` results -/

/-- Inversion: whenever `validate_document` returns, the boolean is the
emptiness of the error list. -/
theorem vd_ok_shape (schemas : List (String × Schema)) (doc : Json)
    (dt? : Option String) (v : Bool) (errs : List String)
    (h : validate_document schemas doc dt? = .ok (v, errs)) :
    (v = true ↔ errs = []) := by
  unfold validate_document at h
  cases hr : resolve_doc_type doc dt? with
  | error e =>
    rw [hr, exceptBind_error] at h
    cases h
  | ok dt =>
    rw [hr] at h
    simp only [exceptBind_ok] at h
    cases hl : schemas.lookup dt with
    | none =>
      simp only [hl, exceptPure_eq] at h
      injection h with h2
      injection h2 with hv he
      subst hv
      subst he
      simp
    | some schema =>
      simp only [hl] at h
      cases hq : _validate_ogcr_requirements doc dt with
      | error e =>
        simp only [hq, exceptBind_error] at h
        cases h
      | ok add =>
        simp only [hq, exceptBind_ok, exceptPure_eq] at h
        injection h with h2
        injection h2 with hv he
        subst hv
        subst he
        simp [List.isEmpty_iff]

/-- The unknown-profile early return of `validate_document`. -/
theorem vd_unknown (schemas : List (String × Schema)) (doc : Json)
    (dt? : Option String) (dt : String)
    (hdt : resolve_doc_type doc dt? = .ok dt)
    (hs : schemas.lookup dt = none) :
    validate_document schemas doc dt? = .ok (false, ["Unknown document type: " ++ dt]) := by
  unfold validate_document
  rw [hdt]
  simp only [exceptBind_ok, hs, exceptPure_eq]

/-- The full error order of `validate_document` under a loaded schema:
structural lines first, then the semantic checkers in their fixed
order. -/
theorem vd_order (schemas : List (String × Schema)) (doc : Json)
    (dt? : Option String) (dt : String) (schema : Schema)
    (g v l p : List String)
    (hdt : resolve_doc_type doc dt? = .ok dt)
    (hs : schemas.lookup dt = some schema)
    (hg : _validate_geojson_compliance doc = .ok g)
    (hv : _validate_ogcr_version doc = .ok v)
    (hl : _validate_links doc = .ok l)
    (hp : profile_specific_errors dt doc = .ok p) :
    validate_document schemas doc dt? =
      .ok ((schemaErrorLines schema doc ++ (g ++ v ++ l ++ p)).isEmpty,
           schemaErrorLines schema doc ++ (g ++ v ++ l ++ p)) := by
  have hreq : _validate_ogcr_requirements doc dt = .ok (g ++ v ++ l ++ p) := by
    unfold _validate_ogcr_requirements
    rw [hg]
    simp only [exceptBind_ok]
    rw [hv]
    simp only [exceptBind_ok]
    rw [hl]
    simp only [exceptBind_ok]
    rw [hp]
    simp only [exceptBind_ok, exceptPure_eq]
  unfold validate_document
  rw [hdt]
  simp only [exceptBind_ok, hs, hreq, exceptPure_eq]

/-! ### Lemmas: totality of the checkers on well-typed documents -/

theorem geometry_errors_ok (g : Json)
    (hg : (!g.truthy || (match g with | .obj _ => true | _ => false)) = true) :
    exceptOk (geometry_errors g) = true := by
  cases g with
  | null => rfl
  | bool b =>
    cases b with
    | false => rfl
    | true => simp [Json.truthy] at hg
  | num n =>
    have hn : n = 0 := by simpa [Json.truthy] using hg
    subst hn
    rfl
  | str s =>
    have hs : s = "" := by simpa [Json.truthy] using hg
    subst hs
    rfl
  | arr xs =>
    have hx : xs = [] := by simpa [Json.truthy, List.isEmpty_iff] using hg
    subst hx
    rfl
  | obj gs =>
    cases gs with
    | nil => rfl
    | cons f rest =>
      unfold geometry_errors
      split
      · rename_i hcond
        simp [Json.truthy] at hcond
      · simp only [pyContains, pyGetD, exceptBind_ok]
        split
        · rfl
        · rfl

theorem version_logic_ok (v : Json) (hv : strOrFalsy v = true) :
    exceptOk (version_logic v) = true := by
  cases v with
  | null => rfl
  | bool b =>
    cases b with
    | false => rfl
    | true => simp [strOrFalsy, Json.truthy] at hv
  | num n =>
    have hn : n = 0 := by simpa [strOrFalsy, Json.truthy] using hv
    subst hn
    rfl
  | str s =>
    unfold version_logic
    split
    · rfl
    · rfl
  | arr xs =>
    have hx : xs = [] := by simpa [strOrFalsy, Json.truthy, List.isEmpty_iff] using hv
    subst hx
    rfl
  | obj fs =>
    have hx : fs = [] := by simpa [strOrFalsy, Json.truthy, List.isEmpty_iff] using hv
    subst hx
    rfl

theorem links_logic_ok (l : Json)
    (hl : (!l.truthy || (match l with | .arr _ => true | _ => false)) = true) :
    exceptOk (links_logic l) = true := by
  cases l with
  | null => rfl
  | bool b =>
    cases b with
    | false => rfl
    | true => simp [Json.truthy] at hl
  | num n =>
    have hn : n = 0 := by simpa [Json.truthy] using hl
    subst hn
    rfl
  | str s =>
    have hs : s = "" := by simpa [Json.truthy, List.isEmpty_iff] using hl
    subst hs
    rfl
  | obj fs =>
    have hx : fs = [] := by simpa [Json.truthy, List.isEmpty_iff] using hl
    subst hx
    rfl
  | arr xs =>
    unfold links_logic
    split
    · rfl
    · simp only [pyIter, exceptBind_ok]
      rfl

theorem detect_fallback_ok (ps : List (String × Json)) :
    exceptOk (detect_fallback (.obj ps)) = true := by
  unfold detect_fallback
  simp only [pyContains, exceptBind_ok]
  split
  · rfl
  · split
    · rfl
    · rfl

theorem pdd_creation_errors_ok (c : Json) (hc : strOrFalsy c = true) :
    exceptOk (pdd_creation_errors c) = true := by
  cases c with
  | null => rfl
  | bool b =>
    cases b with
    | false => rfl
    | true => simp [strOrFalsy, Json.truthy] at hc
  | num n =>
    have hn : n = 0 := by simpa [strOrFalsy, Json.truthy] using hc
    subst hn
    rfl
  | str s =>
    unfold pdd_creation_errors
    split
    · rfl
    · rfl
  | arr xs =>
    have hx : xs = [] := by simpa [strOrFalsy, Json.truthy, List.isEmpty_iff] using hc
    subst hx
    rfl
  | obj fs =>
    have hx : fs = [] := by simpa [strOrFalsy, Json.truthy, List.isEmpty_iff] using hc
    subst hx
    rfl

theorem methodology_version_errors_ok (v : Json) (hv : strOrFalsy v = true) :
    exceptOk (methodology_version_errors v) = true := by
  cases v with
  | null => rfl
  | bool b =>
    cases b with
    | false => rfl
    | true => simp [strOrFalsy, Json.truthy] at hv
  | num n =>
    have hn : n = 0 := by simpa [strOrFalsy, Json.truthy] using hv
    subst hn
    rfl
  | str s =>
    unfold methodology_version_errors
    split
    · rfl
    · rfl
  | arr xs =>
    have hx : xs = [] := by simpa [strOrFalsy, Json.truthy, List.isEmpty_iff] using hv
    subst hx
    rfl
  | obj fs =>
    have hx : fs = [] := by simpa [strOrFalsy, Json.truthy, List.isEmpty_iff] using hv
    subst hx
    rfl

theorem pdd_methodology_errors_ok (m : Json)
    (hm : (match m with
           | .obj ms => strOrFalsy ((ms.lookup "version").getD .null)
           | _ => true) = true) :
    exceptOk (pdd_methodology_errors m) = true := by
  cases m with
  | null => rfl
  | bool b => cases b with | false => rfl | true => rfl
  | num n =>
    unfold pdd_methodology_errors
    split
    · rfl
    · rfl
  | str s =>
    unfold pdd_methodology_errors
    split
    · rfl
    · rfl
  | arr xs =>
    unfold pdd_methodology_errors
    split
    · rfl
    · rfl
  | obj ms =>
    have hm2 : strOrFalsy ((ms.lookup "version").getD .null) = true := by
      simpa using hm
    simp only [pdd_methodology_errors]
    split
    · obtain ⟨e3, he3⟩ := exceptOk_exists (methodology_version_errors_ok _ hm2)
      rw [he3]
      simp only [exceptBind_ok]
      rfl
    · rfl

theorem pdd_benefit_errors_ok (b : Json) (hb : nullOrNumeric b = true) :
    exceptOk (pdd_benefit_errors b) = true := by
  cases b with
  | null => rfl
  | num n =>
    unfold pdd_benefit_errors pyLtZero pyNumVal
    simp only [exceptBind_ok]
    rfl
  | bool c =>
    unfold pdd_benefit_errors pyLtZero pyNumVal
    simp only [exceptBind_ok]
    rfl
  | str s => simp [nullOrNumeric] at hb
  | arr xs => simp [nullOrNumeric] at hb
  | obj fs => simp [nullOrNumeric] at hb

theorem pdd_props_logic_ok (ps : List (String × Json))
    (hp : wellTypedProps ps = true) :
    exceptOk (pdd_props_logic (.obj ps)) = true := by
  unfold wellTypedProps at hp
  simp only [Bool.and_eq_true] at hp
  obtain ⟨⟨⟨⟨⟨h1, h2⟩, h3⟩, h4⟩, h5⟩, h6⟩ := hp
  unfold pdd_props_logic
  simp only [pyGetD, exceptBind_ok]
  obtain ⟨c1, hc1⟩ := exceptOk_exists (pdd_creation_errors_ok _ h1)
  rw [hc1]
  simp only [exceptBind_ok]
  obtain ⟨c2, hc2⟩ := exceptOk_exists (pdd_methodology_errors_ok _ h2)
  rw [hc2]
  simp only [exceptBind_ok]
  obtain ⟨c3, hc3⟩ := exceptOk_exists (pdd_benefit_errors_ok _ h3)
  rw [hc3]
  simp only [exceptBind_ok]
  rfl

theorem mrv_date_errors_ok (s e : Json)
    (hse : (!(s.truthy && e.truthy) ||
      (match s, e with | .str _, .str _ => true | _, _ => false)) = true) :
    exceptOk (mrv_date_errors s e) = true := by
  cases s <;> cases e <;> unfold mrv_date_errors <;> split <;>
    first
      | rfl
      | (rename_i hcond; simp_all [Json.truthy])

theorem mrv_estimate_errors_ok (est : Json)
    (he : (match est with
           | .obj es => nullOrNumeric ((es.lookup "value").getD .null)
           | _ => true) = true) :
    exceptOk (mrv_estimate_errors est) = true := by
  cases est with
  | null => rfl
  | bool b => cases b with | false => rfl | true => rfl
  | num n =>
    unfold mrv_estimate_errors
    split
    · rfl
    · rfl
  | str s =>
    unfold mrv_estimate_errors
    split
    · rfl
    · rfl
  | arr xs =>
    unfold mrv_estimate_errors
    split
    · rfl
    · rfl
  | obj es =>
    have he2 : nullOrNumeric ((es.lookup "value").getD .null) = true := by
      simpa using he
    have step : exceptOk (estimate_value_errors ((es.lookup "value").getD .null)) = true := by
      cases hv : (es.lookup "value").getD .null <;>
        first
          | rfl
          | (rw [hv] at he2; simp [nullOrNumeric] at he2)
    simp only [mrv_estimate_errors]
    split
    · obtain ⟨e1, he1⟩ := exceptOk_exists step
      rw [he1]
      simp only [exceptBind_ok]
      rfl
    · rfl

theorem mrv_uncertainty_errors_ok (u : Json)
    (hu : (match u with
           | .obj us =>
             (match (us.lookup "min").getD .null, (us.lookup "max").getD .null with
              | .null, _ => true
              | _, .null => true
              | a, b => nullOrNumeric a && nullOrNumeric b) &&
             nullOrNumeric ((us.lookup "confidence_level").getD .null)
           | _ => true) = true) :
    exceptOk (mrv_uncertainty_errors u) = true := by
  cases u with
  | null => rfl
  | bool b => cases b with | false => rfl | true => rfl
  | num n =>
    unfold mrv_uncertainty_errors
    split
    · rfl
    · rfl
  | str s =>
    unfold mrv_uncertainty_errors
    split
    · rfl
    · rfl
  | arr xs =>
    unfold mrv_uncertainty_errors
    split
    · rfl
    · rfl
  | obj us =>
    have hu2 : (match (us.lookup "min").getD .null, (us.lookup "max").getD .null with
        | Json.null, _ => true
        | _, Json.null => true
        | a, b => nullOrNumeric a && nullOrNumeric b) = true ∧
        nullOrNumeric ((us.lookup "confidence_level").getD .null) = true := by
      simpa [Bool.and_eq_true] using hu
    obtain ⟨hmm, hcl⟩ := hu2
    have step1 : exceptOk (uncertainty_range_errors ((us.lookup "min").getD .null)
        ((us.lookup "max").getD .null)) = true := by
      cases hv1 : (us.lookup "min").getD .null <;>
        cases hv2 : (us.lookup "max").getD .null <;>
        first
          | rfl
          | (rw [hv1, hv2] at hmm; simp [nullOrNumeric] at hmm)
    have step2 : exceptOk (uncertainty_confidence_errors
        ((us.lookup "confidence_level").getD .null)) = true := by
      cases hv : (us.lookup "confidence_level").getD .null <;>
        first
          | rfl
          | (rw [hv] at hcl; simp [nullOrNumeric] at hcl)
    simp only [mrv_uncertainty_errors]
    split
    · obtain ⟨e1, he1⟩ := exceptOk_exists step1
      rw [he1]
      simp only [exceptBind_ok]
      obtain ⟨e2, he2⟩ := exceptOk_exists step2
      rw [he2]
      simp only [exceptBind_ok]
      rfl
    · rfl

theorem mrv_props_logic_ok (ps : List (String × Json))
    (hp : wellTypedProps ps = true) :
    exceptOk (mrv_props_logic (.obj ps)) = true := by
  unfold wellTypedProps at hp
  simp only [Bool.and_eq_true] at hp
  obtain ⟨⟨⟨⟨⟨h1, h2⟩, h3⟩, h4⟩, h5⟩, h6⟩ := hp
  unfold mrv_props_logic
  simp only [pyGetD, exceptBind_ok]
  obtain ⟨c1, hc1⟩ := exceptOk_exists (mrv_date_errors_ok _ _ h4)
  rw [hc1]
  simp only [exceptBind_ok]
  obtain ⟨c2, hc2⟩ := exceptOk_exists (mrv_estimate_errors_ok _ h5)
  rw [hc2]
  simp only [exceptBind_ok]
  obtain ⟨c3, hc3⟩ := exceptOk_exists (mrv_uncertainty_errors_ok _ h6)
  rw [hc3]
  simp only [exceptBind_ok]
  rfl

theorem geojson_ok (fs : List (String × Json))
    (hg : (!((fs.lookup "geometry").getD .null).truthy ||
      (match (fs.lookup "geometry").getD .null with
       | .obj _ => true | _ => false)) = true) :
    exceptOk (_validate_geojson_compliance (.obj fs)) = true := by
  unfold _validate_geojson_compliance
  simp only [pyGetD, exceptBind_ok]
  unfold geojson_logic
  obtain ⟨e2, he2⟩ := exceptOk_exists (geometry_errors_ok _ hg)
  rw [he2]
  simp only [exceptBind_ok]
  rfl

theorem version_ok (fs : List (String × Json))
    (hv : strOrFalsy ((fs.lookup "ogcr_version").getD .null) = true) :
    exceptOk (_validate_ogcr_version (.obj fs)) = true := by
  unfold _validate_ogcr_version
  simp only [pyGetD, exceptBind_ok]
  exact version_logic_ok _ hv

theorem links_ok (fs : List (String × Json))
    (hl : (!((fs.lookup "links").getD (.arr [])).truthy ||
      (match (fs.lookup "links").getD (.arr []) with
       | .arr _ => true | _ => false)) = true) :
    exceptOk (_validate_links (.obj fs)) = true := by
  unfold _validate_links
  simp only [pyGetD, exceptBind_ok]
  exact links_logic_ok _ hl

theorem detect_ok (fs : List (String × Json))
    (hp : (match fs.lookup "properties" with
           | none => true
           | some (.obj _) => true
           | some _ => false) = true) :
    exceptOk (_detect_document_type (.obj fs)) = true := by
  unfold _detect_document_type
  simp only [pyGetD, exceptBind_ok]
  split
  · rfl
  split
  · rfl
  · cases hq : fs.lookup "properties" with
    | none => exact detect_fallback_ok []
    | some v =>
      cases v with
      | obj ps => exact detect_fallback_ok ps
      | null => simp_all
      | bool b => simp_all
      | num n => simp_all
      | str s => simp_all
      | arr xs => simp_all

theorem pdd_specific_ok (fs : List (String × Json))
    (hp : (match fs.lookup "properties" with
           | none => true
           | some (.obj ps) => wellTypedProps ps
           | some _ => false) = true) :
    exceptOk (_validate_pdd_specific (.obj fs)) = true := by
  unfold _validate_pdd_specific
  simp only [pyGetD, exceptBind_ok]
  cases hq : fs.lookup "properties" with
  | none => exact pdd_props_logic_ok [] (by decide)
  | some v =>
    cases v with
    | obj ps => exact pdd_props_logic_ok ps (by simp_all)
    | null => simp_all
    | bool b => simp_all
    | num n => simp_all
    | str s => simp_all
    | arr xs => simp_all

theorem mrv_specific_ok (fs : List (String × Json))
    (hp : (match fs.lookup "properties" with
           | none => true
           | some (.obj ps) => wellTypedProps ps
           | some _ => false) = true) :
    exceptOk (_validate_mrv_specific (.obj fs)) = true := by
  unfold _validate_mrv_specific
  simp only [pyGetD, exceptBind_ok]
  cases hq : fs.lookup "properties" with
  | none => exact mrv_props_logic_ok [] (by decide)
  | some v =>
    cases v with
    | obj ps => exact mrv_props_logic_ok ps (by simp_all)
    | null => simp_all
    | bool b => simp_all
    | num n => simp_all
    | str s => simp_all
    | arr xs => simp_all

theorem profile_specific_ok (dt : String) (fs : List (String × Json))
    (hp : (match fs.lookup "properties" with
           | none => true
           | some (.obj ps) => wellTypedProps ps
           | some _ => false) = true) :
    exceptOk (profile_specific_errors dt (.obj fs)) = true := by
  unfold profile_specific_errors
  split
  · exact pdd_specific_ok fs hp
  split
  · exact mrv_specific_ok fs hp
  · rfl

theorem requirements_ok (fs : List (String × Json)) (dt : String)
    (hg : (!((fs.lookup "geometry").getD .null).truthy ||
      (match (fs.lookup "geometry").getD .null with
       | .obj _ => true | _ => false)) = true)
    (hv : strOrFalsy ((fs.lookup "ogcr_version").getD .null) = true)
    (hl : (!((fs.lookup "links").getD (.arr [])).truthy ||
      (match (fs.lookup "links").getD (.arr []) with
       | .arr _ => true | _ => false)) = true)
    (hp : (match fs.lookup "properties" with
           | none => true
           | some (.obj ps) => wellTypedProps ps
           | some _ => false) = true) :
    exceptOk (_validate_ogcr_requirements (.obj fs) dt) = true := by
  unfold _validate_ogcr_requirements
  obtain ⟨g, hg2⟩ := exceptOk_exists (geojson_ok fs hg)
  rw [hg2]
  simp only [exceptBind_ok]
  obtain ⟨v, hv2⟩ := exceptOk_exists (version_ok fs hv)
  rw [hv2]
  simp only [exceptBind_ok]
  obtain ⟨l, hl2⟩ := exceptOk_exists (links_ok fs hl)
  rw [hl2]
  simp only [exceptBind_ok]
  obtain ⟨p, hp2⟩ := exceptOk_exists (profile_specific_ok dt fs hp)
  rw [hp2]
  simp only [exceptBind_ok]
  rfl

/-- On a well-typed document, `validate_document` always returns a
result. -/
theorem validate_document_total (schemas : List (String × Schema))
    (fs : List (String × Json)) (dt? : Option String)
    (h : wellTypedDoc fs = true) :
    exceptOk (validate_document schemas (.obj fs) dt?) = true := by
  unfold wellTypedDoc at h
  simp only [Bool.and_eq_true] at h
  obtain ⟨⟨⟨hg, hv⟩, hl⟩, hp⟩ := h
  have hpw : (match fs.lookup "properties" with
      | none => true
      | some (.obj _) => true
      | some _ => false) = true := by
    cases hq : fs.lookup "properties" with
    | none => rfl
    | some v =>
      cases v with
      | obj ps => rfl
      | null => simp_all
      | bool b => simp_all
      | num n => simp_all
      | str s => simp_all
      | arr xs => simp_all
  have hres : exceptOk (resolve_doc_type (.obj fs) dt?) = true := by
    cases dt? with
    | some t => rfl
    | none => exact detect_ok fs hpw
  obtain ⟨dt, hdt⟩ := exceptOk_exists hres
  unfold validate_document
  rw [hdt]
  simp only [exceptBind_ok]
  cases hs : schemas.lookup dt with
  | none =>
    simp only [hs]
    rfl
  | some schema =>
    simp only [hs]
    obtain ⟨add, hadd⟩ := exceptOk_exists (requirements_ok fs dt hg hv hl hp)
    rw [hadd]
    simp only [exceptBind_ok]
    rfl

theorem head_of_append (p x : String) (c : Char) (hp : p.data.head? = some c) :
    (p ++ x).data.head? = some c := by
  rw [dataAppend]
  cases hd : p.data with
  | nil => rw [hd] at hp; cases hp
  | cons a as =>
    rw [hd] at hp
    simpa using hp

theorem ne_of_head (s lit : String) (c c' : Char)
    (hs : s.data.head? = some c) (hl : lit.data.head? = some c') (hne : c ≠ c') :
    s ≠ lit := by
  intro h
  rw [h, hl] at hs
  injection hs with h2
  exact hne h2.symm

/-! ### Lemmas: the file and API boundaries keep the result invariant -/

theorem pair_ok_shape {v b : Bool} {errs l : List String}
    (h : (Except.ok (b, l) : Except PyErr (Bool × List String)) = .ok (v, errs))
    (hbl : b = true ↔ l = []) : (v = true ↔ errs = []) := by
  injection h with h2
  injection h2 with hv2 he2
  subst hv2
  subst he2
  exact hbl

theorem validate_one_item_shape (schemas : List (String × Schema)) (i : Nat)
    (item : Json) (v : Bool) (errs : List String)
    (h : validate_one_item schemas i item = .ok (v, errs)) :
    (v = true ↔ errs = []) := by
  cases item with
  | obj ifs =>
    simp only [validate_one_item] at h
    split at h
    · cases hv : validate_document schemas (.obj ifs) none with
      | error e =>
        rw [hv, exceptBind_error] at h
        cases h
      | ok r =>
        obtain ⟨rv, re⟩ := r
        rw [hv] at h
        simp only [exceptBind_ok, exceptPure_eq] at h
        have hshape := vd_ok_shape schemas (.obj ifs) none rv re hv
        cases rv with
        | true =>
          simp only [reduceIte] at h
          exact pair_ok_shape h (by simp)
        | false =>
          have hre : re ≠ [] := by
            intro hcon
            exact absurd (hshape.mpr hcon) (by simp)
          simp only [Bool.false_eq_true, reduceIte] at h
          exact pair_ok_shape h (by simp [hre])
    · simp only [exceptPure_eq] at h
      exact pair_ok_shape h (by simp)
  | null =>
    simp only [validate_one_item, exceptPure_eq] at h
    exact pair_ok_shape h (by simp)
  | bool b =>
    simp only [validate_one_item, exceptPure_eq] at h
    exact pair_ok_shape h (by simp)
  | num n =>
    simp only [validate_one_item, exceptPure_eq] at h
    exact pair_ok_shape h (by simp)
  | str s =>
    simp only [validate_one_item, exceptPure_eq] at h
    exact pair_ok_shape h (by simp)
  | arr xs =>
    simp only [validate_one_item, exceptPure_eq] at h
    exact pair_ok_shape h (by simp)

theorem validate_data_items_shape (schemas : List (String × Schema))
    (items : List (Nat × Json)) (v : Bool) (errs : List String)
    (h : validate_data_items schemas items = .ok (v, errs)) :
    (v = true ↔ errs = []) := by
  induction items generalizing v errs with
  | nil =>
    simp only [validate_data_items] at h
    exact pair_ok_shape h (by simp)
  | cons it rest ih =>
    obtain ⟨i, item⟩ := it
    unfold validate_data_items at h
    cases hh : validate_one_item schemas i item with
    | error e =>
      rw [hh, exceptBind_error] at h
      cases h
    | ok head =>
      rw [hh] at h
      simp only [exceptBind_ok] at h
      cases ht : validate_data_items schemas rest with
      | error e =>
        rw [ht, exceptBind_error] at h
        cases h
      | ok tail =>
        rw [ht] at h
        simp only [exceptBind_ok, exceptPure_eq] at h
        have hhead := validate_one_item_shape schemas i item head.1 head.2 (by rw [hh])
        have htail := ih tail.1 tail.2 (by rw [ht])
        refine pair_ok_shape h ?_
        constructor
        · intro hb
          obtain ⟨hb1, hb2⟩ := by simpa [Bool.and_eq_true] using hb
          rw [hhead.mp hb1, htail.mp hb2]
          rfl
        · intro he
          obtain ⟨he1, he2⟩ := by simpa using he
          rw [hhead.mpr he1, htail.mpr he2]
          rfl

theorem validate_api_endpoint_shape (schemas : List (String × Schema))
    (resp : ApiResponse) (v : Bool) (errs : List String)
    (h : validate_api_endpoint schemas resp = .ok (v, errs)) :
    (v = true ↔ errs = []) := by
  cases resp with
  | requestError m =>
    simp only [validate_api_endpoint] at h
    exact pair_ok_shape h (by simp)
  | httpResponse status reason body =>
    cases body with
    | notJson =>
      simp only [validate_api_endpoint] at h
      split at h
      · exact pair_ok_shape h (by simp)
      · exact pair_ok_shape h (by simp)
    | jsonData data =>
      cases data with
      | obj fs =>
        simp only [validate_api_endpoint] at h
        split at h
        · exact pair_ok_shape h (by simp)
        · split at h
          · exact vd_ok_shape schemas (.obj fs) none v errs h
          · cases hd : fs.lookup "data" with
            | some dv =>
              simp only [hd] at h
              cases hi : pyIter dv with
              | error e =>
                rw [hi, exceptBind_error] at h
                cases h
              | ok items =>
                rw [hi] at h
                simp only [exceptBind_ok] at h
                exact validate_data_items_shape schemas items.enum v errs h
            | none =>
              simp only [hd] at h
              exact pair_ok_shape h (by simp)
      | null =>
        simp only [validate_api_endpoint] at h
        split at h
        · exact pair_ok_shape h (by simp)
        · exact pair_ok_shape h (by simp)
      | bool b =>
        simp only [validate_api_endpoint] at h
        split at h
        · exact pair_ok_shape h (by simp)
        · exact pair_ok_shape h (by simp)
      | num n =>
        simp only [validate_api_endpoint] at h
        split at h
        · exact pair_ok_shape h (by simp)
        · exact pair_ok_shape h (by simp)
      | str s =>
        simp only [validate_api_endpoint] at h
        split at h
        · exact pair_ok_shape h (by simp)
        · exact pair_ok_shape h (by simp)
      | arr xs =>
        simp only [validate_api_endpoint] at h
        split at h
        · exact pair_ok_shape h (by simp)
        · exact pair_ok_shape h (by simp)

theorem validate_file_shape (schemas : List (String × Schema)) (input : FileReadResult) :
    ((validate_file schemas input).1 = true ↔ (validate_file schemas input).2 = []) := by
  cases input with
  | notFound p => simp [validate_file]
  | badJson m => simp [validate_file]
  | parsed doc =>
    cases hv : validate_document schemas doc none with
    | error e => simp [validate_file, hv]
    | ok r =>
      obtain ⟨rv, re⟩ := r
      have hs := vd_ok_shape schemas doc none rv re hv
      simpa [validate_file, hv] using hs

/-! ### Lemmas: the estimate and uncertainty blocks never emit the
date-ordering error -/

theorem not_mem_ite {c : Prop} [Decidable c] {x : String} {A B : List String}
    (hA : x ∉ A) (hB : x ∉ B) : x ∉ if c then A else B := by
  split
  · exact hA
  · exact hB

theorem estimate_value_no_order (w : Json) (out : List String)
    (h : estimate_value_errors w = .ok out) : dateOrderMsg ∉ out := by
  cases w with
  | null =>
    injection h with h2
    subst h2
    decide
  | num n =>
    simp only [estimate_value_errors, pyLtZero, pyNumVal, exceptBind_ok, exceptPure_eq] at h
    injection h with h2
    subst h2
    split
    · decide
    · decide
  | bool b =>
    simp only [estimate_value_errors, pyLtZero, pyNumVal, exceptBind_ok, exceptPure_eq] at h
    injection h with h2
    subst h2
    split
    · decide
    · decide
  | str s =>
    simp only [estimate_value_errors, pyLtZero, pyNumVal, exceptBind_error] at h
    cases h
  | arr xs =>
    simp only [estimate_value_errors, pyLtZero, pyNumVal, exceptBind_error] at h
    cases h
  | obj fs =>
    simp only [estimate_value_errors, pyLtZero, pyNumVal, exceptBind_error] at h
    cases h

theorem estimate_unit_no_order (u : Json) : dateOrderMsg ∉ estimate_unit_errors u := by
  unfold estimate_unit_errors
  split
  · intro hmem
    simp only [List.mem_singleton] at hmem
    exact absurd hmem.symm (ne_of_head _ _ 'I' 's'
      (head_of_append _ _ 'I' (head_of_append _ _ 'I'
        (head_of_append _ _ 'I' (head_of_append _ _ 'I' rfl)))) rfl (by decide))
  · simp

theorem estimate_no_order (est : Json) (out : List String)
    (h : mrv_estimate_errors est = .ok out) : dateOrderMsg ∉ out := by
  cases est with
  | obj es =>
    simp only [mrv_estimate_errors] at h
    split at h
    · cases he1 : estimate_value_errors ((es.lookup "value").getD .null) with
      | error e =>
        rw [he1, exceptBind_error] at h
        cases h
      | ok e1 =>
        rw [he1] at h
        simp only [exceptBind_ok, exceptPure_eq] at h
        injection h with h2
        subst h2
        intro hmem
        rcases List.mem_append.mp hmem with hm | hm
        · exact estimate_value_no_order _ _ he1 hm
        · exact estimate_unit_no_order _ hm
    · injection h with h2
      subst h2
      decide
  | null =>
    simp only [mrv_estimate_errors] at h
    split at h <;> (injection h with h2; subst h2; decide)
  | bool b =>
    simp only [mrv_estimate_errors] at h
    split at h <;> (injection h with h2; subst h2; decide)
  | num n =>
    simp only [mrv_estimate_errors] at h
    split at h <;> (injection h with h2; subst h2; decide)
  | str s =>
    simp only [mrv_estimate_errors] at h
    split at h <;> (injection h with h2; subst h2; decide)
  | arr xs =>
    simp only [mrv_estimate_errors] at h
    split at h <;> (injection h with h2; subst h2; decide)

theorem uncertainty_range_no_order (mn mx : Json) (out : List String)
    (h : uncertainty_range_errors mn mx = .ok out) : dateOrderMsg ∉ out := by
  cases mn <;> cases mx <;> unfold uncertainty_range_errors at h <;> cases h <;>
    first
      | decide
      | exact not_mem_ite (by decide) (by decide)

theorem uncertainty_confidence_no_order (c : Json) (out : List String)
    (h : uncertainty_confidence_errors c = .ok out) : dateOrderMsg ∉ out := by
  cases c <;> unfold uncertainty_confidence_errors at h <;> cases h <;>
    first
      | decide
      | exact not_mem_ite (by decide) (by decide)

theorem uncertainty_no_order (u : Json) (out : List String)
    (h : mrv_uncertainty_errors u = .ok out) : dateOrderMsg ∉ out := by
  cases u with
  | obj us =>
    simp only [mrv_uncertainty_errors] at h
    split at h
    · cases he1 : uncertainty_range_errors ((us.lookup "min").getD .null)
          ((us.lookup "max").getD .null) with
      | error e =>
        rw [he1, exceptBind_error] at h
        cases h
      | ok e1 =>
        rw [he1] at h
        simp only [exceptBind_ok] at h
        cases he2 : uncertainty_confidence_errors ((us.lookup "confidence_level").getD .null) with
        | error e =>
          rw [he2, exceptBind_error] at h
          cases h
        | ok e2 =>
          rw [he2] at h
          simp only [exceptBind_ok, exceptPure_eq] at h
          injection h with h2
          subst h2
          intro hmem
          rcases List.mem_append.mp hmem with hm | hm
          · exact uncertainty_range_no_order _ _ _ he1 hm
          · exact uncertainty_confidence_no_order _ _ he2 hm
    · injection h with h2
      subst h2
      decide
  | null =>
    simp only [mrv_uncertainty_errors] at h
    split at h <;> (injection h with h2; subst h2; decide)
  | bool b =>
    simp only [mrv_uncertainty_errors] at h
    split at h <;> (injection h with h2; subst h2; decide)
  | num n =>
    simp only [mrv_uncertainty_errors] at h
    split at h <;> (injection h with h2; subst h2; decide)
  | str s =>
    simp only [mrv_uncertainty_errors] at h
    split at h <;> (injection h with h2; subst h2; decide)
  | arr xs =>
    simp only [mrv_uncertainty_errors] at h
    split at h <;> (injection h with h2; subst h2; decide)

/-- On two truthy (non-empty) string dates the date block reduces to the
pure string-level check. -/
theorem mrv_date_errors_str (ss es : String) (h1 : ss ≠ "") (h2 : es ≠ "") :
    mrv_date_errors (.str ss) (.str es) = .ok (date_range_errors ss es) := by
  unfold mrv_date_errors
  have hc : (Json.truthy (.str ss) && Json.truthy (.str es)) = true := by
    simp [Json.truthy, h1, h2]
  simp [hc]

/-- Decomposition of a successful `_validate_mrv_specific` run on a
document whose properties carry two truthy string dates. -/
theorem mrv_specific_decompose (fs ps : List (String × Json)) (ss es : String)
    (out : List String)
    (hprops : fs.lookup "properties" = some (.obj ps))
    (hss : ps.lookup "start_date" = some (.str ss))
    (hes : ps.lookup "end_date" = some (.str es))
    (h1 : ss ≠ "") (h2 : es ≠ "")
    (h : _validate_mrv_specific (.obj fs) = .ok out) :
    ∃ d2 d3, out = date_range_errors ss es ++ d2 ++ d3 ∧
      mrv_estimate_errors ((ps.lookup "net_removal_estimate").getD .null) = .ok d2 ∧
      mrv_uncertainty_errors ((ps.lookup "total_uncertainty").getD .null) = .ok d3 := by
  unfold _validate_mrv_specific at h
  simp only [pyGetD, hprops, Option.getD_some, exceptBind_ok] at h
  unfold mrv_props_logic at h
  simp only [pyGetD, hss, hes, Option.getD_some, exceptBind_ok] at h
  rw [mrv_date_errors_str ss es h1 h2] at h
  simp only [exceptBind_ok] at h
  cases hd2 : mrv_estimate_errors ((ps.lookup "net_removal_estimate").getD .null) with
  | error e =>
    rw [hd2, exceptBind_error] at h
    cases h
  | ok d2 =>
    rw [hd2] at h
    simp only [exceptBind_ok] at h
    cases hd3 : mrv_uncertainty_errors ((ps.lookup "total_uncertainty").getD .null) with
    | error e =>
      rw [hd3, exceptBind_error] at h
      cases h
    | ok d3 =>
      rw [hd3] at h
      simp only [exceptBind_ok, exceptPure_eq] at h
      injection h with h3
      exact ⟨d2, d3, h3.symm, rfl, rfl⟩

/-- Decomposition of a successful GeoJSON-checker run: the Feature
check, then the geometry block, then the bbox block. -/
theorem geojson_output (fs : List (String × Json)) (out : List String)
    (h : _validate_geojson_compliance (.obj fs) = .ok out) :
    ∃ e2, geometry_errors ((fs.lookup "geometry").getD .null) = .ok e2 ∧
      out = (if isStrVal ((fs.lookup "type").getD .null) "Feature" then []
             else ["Document must be a GeoJSON Feature"]) ++ e2 ++
            bbox_errors ((fs.lookup "bbox").getD .null) := by
  unfold _validate_geojson_compliance at h
  simp only [pyGetD, exceptBind_ok] at h
  unfold geojson_logic at h
  cases hg : geometry_errors ((fs.lookup "geometry").getD .null) with
  | error e =>
    rw [hg, exceptBind_error] at h
    cases h
  | ok e2 =>
    rw [hg] at h
    simp only [exceptBind_ok, exceptPure_eq] at h
    injection h with h2
    exact ⟨e2, rfl, h2.symm⟩

theorem geometry_errors_falsy (g : Json) (hg : g.truthy = false) :
    geometry_errors g = .ok ["Missing required geometry field"] := by
  unfold geometry_errors
  simp [hg]

theorem geometry_errors_incomplete (gs : List (String × Json))
    (hne : gs ≠ [])
    (hmiss : (gs.lookup "type").isNone ∨ (gs.lookup "coordinates").isNone) :
    geometry_errors (.obj gs) = .ok ["Invalid geometry structure"] := by
  have ht : Json.truthy (.obj gs) = true := by
    simp [Json.truthy, hne]
  have hcond : (!((gs.lookup "type").isSome) || !((gs.lookup "coordinates").isSome)) = true := by
    rcases hmiss with hm | hm
    · simp [Option.isNone_iff_eq_none.mp hm]
    · simp [Option.isNone_iff_eq_none.mp hm]
  unfold geometry_errors
  simp only [ht, Bool.not_true, Bool.false_eq_true, reduceIte, pyContains, exceptBind_ok]
  rw [if_pos hcond]
  rfl

theorem geometry_errors_badtype (gs : List (String × Json)) (t : Json)
    (hT : gs.lookup "type" = some t)
    (hC : (gs.lookup "coordinates").isSome = true)
    (hbad : validGeometryType t = false) :
    geometry_errors (.obj gs) = .ok ["Invalid geometry type: " ++ pyStrVal t] := by
  have hne : gs ≠ [] := by
    intro hcon
    subst hcon
    cases hT
  have ht : Json.truthy (.obj gs) = true := by
    simp [Json.truthy, hne]
  unfold geometry_errors
  simp only [ht, Bool.not_true, Bool.false_eq_true, reduceIte, pyContains, pyGetD,
    exceptBind_ok, hT, hC, Option.isSome_some, Bool.not_false, Bool.or_self,
    Option.getD_some, exceptPure_eq]
  simp [hbad]

/-- On a document whose `properties` is absent or a mapping, the
detector agrees with the spec's pure detection function. -/
theorem detect_eq_spec (fs : List (String × Json))
    (hp : (match fs.lookup "properties" with
           | none => true
           | some (.obj _) => true
           | some _ => false) = true) :
    _detect_document_type (.obj fs) = .ok (detectSpecFn fs) := by
  unfold _detect_document_type detectSpecFn
  simp only [pyGetD, exceptBind_ok]
  split
  · rfl
  split
  · rfl
  · cases hq : fs.lookup "properties" with
    | none =>
      simp only [Option.getD_none]
      rfl
    | some v =>
      cases v with
      | obj ps =>
        simp only [Option.getD_some]
        unfold detect_fallback
        simp only [pyContains, exceptBind_ok]
        split
        · rfl
        split
        · rfl
        · rfl
      | null => simp_all
      | bool b => simp_all
      | num n => simp_all
      | str s => simp_all
      | arr xs => simp_all


/-! ### The claims -/

/-- C1 (corrected, amended form): `validate_document` returns a
`(valid, errors)` result — no exception escapes the call — for every
document all of whose inspected fields have the runtime shapes its code
can operate on (`wellTypedDoc`); the original universal claim is
refuted by `validate_document_raises_on_string_benefit`. -/
theorem validate_document_returns_when_well_typed
    (schemas : List (String × Schema)) (fs : List (String × Json)) (dt? : Option String)
    (h : wellTypedDoc fs = true) :
    exceptOk (validate_document schemas (.obj fs) dt?) = true :=
  validate_document_total schemas fs dt? h

/-- C1 counterexample: on a pdd document whose
`expected_annual_benefit` is the string "x", `validate_document` raises
an uncaught `TypeError` (`benefit < 0` on a string) instead of
returning an error list. -/
theorem validate_document_raises_on_string_benefit :
    validate_document schemas0 (.obj [("profile", .str "pdd"),
      ("properties", .obj [("expected_annual_benefit", .str "x")])]) none =
      .error .typeError := by rfl

/-- C1 witness: the test suite's valid PDD document is well-typed and
validates without an exception. -/
theorem validate_document_returns_when_well_typed_witness :
    wellTypedDoc validPddFields = true ∧
    exceptOk (validate_document schemas0 (.obj validPddFields) none) = true :=
  ⟨by decide, validate_document_returns_when_well_typed schemas0 validPddFields none (by decide)⟩

/-- C2 (code bug): on a document whose `links` field is a single
two-property object, `_validate_links` iterates over the object's keys
and emits one "Link i must be an object" error per key — and no
"links must be an array" error at all — though the repository's own
test `test_links_field_not_array` asserts exactly one
"links must be an array" error and the absence of per-key errors. -/
theorem links_object_yields_per_key_errors :
    _validate_links (.obj [("links",
      .obj [("rel", .str "self"), ("href", .str "https://example.com")])]) =
    .ok ["Link 0 must be an object", "Link 1 must be an object"] := by rfl

/-- C3 (corrected, amended form): the structural phase reports only the
first violation raised by the structural-conformance check — one
message line plus its optional path line, never more than two lines —
regardless of how many violations the document has; the original
"one line pair per violation" reading is refuted by
`multi_violation_document_single_schema_line`. -/
theorem structural_phase_reports_only_first_violation
    (schemas : List (String × Schema)) (doc : Json) (dt? : Option String)
    (dt : String) (schema : Schema) (v : SchemaViolation)
    (rest : List SchemaViolation) (sem : List String)
    (hdt : resolve_doc_type doc dt? = .ok dt)
    (hs : schemas.lookup dt = some schema)
    (hiter : jsonschema_iter_errors schema doc = v :: rest)
    (hreq : _validate_ogcr_requirements doc dt = .ok sem) :
    validate_document schemas doc dt? =
      .ok ((renderViolation v ++ sem).isEmpty, renderViolation v ++ sem) ∧
    (renderViolation v).length ≤ 2 := by
  have hlines : schemaErrorLines schema doc = renderViolation v := by
    unfold schemaErrorLines jsonschema_first_error
    rw [hiter]
    rfl
  constructor
  · unfold validate_document
    rw [hdt]
    simp only [exceptBind_ok, hs, hreq, exceptPure_eq, hlines]
  · unfold renderViolation
    split <;> simp

/-- C3 counterexample: a document with four required-field violations
produces exactly one schema-error line (the first violation), not one
line pair per violation. -/
theorem multi_violation_document_single_schema_line :
    (jsonschema_iter_errors pddSchema (.obj [("profile", .str "pdd")])).length = 4 ∧
    validate_document schemas0 (.obj [("profile", .str "pdd")]) none =
      .ok (false, ["Schema validation error: 'type' is a required property",
        "Document must be a GeoJSON Feature", "Missing required geometry field",
        "Missing ogcr_version field"]) ∧
    (["Schema validation error: 'type' is a required property",
      "Document must be a GeoJSON Feature", "Missing required geometry field",
      "Missing ogcr_version field"].filter
        (strHeadIs "Schema validation error".data)).length = 1 :=
  ⟨by rfl, by rfl, by decide⟩

/-- C3 witness: the amended statement instantiated on the
four-violation document. -/
theorem structural_phase_reports_only_first_violation_witness :
    validate_document schemas0 (.obj [("profile", .str "pdd")]) none =
      .ok ((renderViolation ⟨"'type' is a required property", []⟩ ++
            ["Document must be a GeoJSON Feature", "Missing required geometry field",
             "Missing ogcr_version field"]).isEmpty,
           renderViolation ⟨"'type' is a required property", []⟩ ++
            ["Document must be a GeoJSON Feature", "Missing required geometry field",
             "Missing ogcr_version field"]) ∧
    (renderViolation ⟨"'type' is a required property", []⟩).length ≤ 2 :=
  structural_phase_reports_only_first_violation schemas0 (.obj [("profile", .str "pdd")])
    none "pdd" pddSchema ⟨"'type' is a required property", []⟩
    [⟨"'ogcr_version' is a required property", []⟩,
     ⟨"'geometry' is a required property", []⟩,
     ⟨"'properties' is a required property", []⟩]
    ["Document must be a GeoJSON Feature", "Missing required geometry field",
     "Missing ogcr_version field"]
    (by rfl) (by rfl) (by rfl) (by rfl)

/-- C4 (confirmed): every result returned by `validate_document`,
`validate_file` or `validate_api_endpoint` satisfies the
`ValidationResult` invariant `valid == (errors is empty)`. -/
theorem validation_results_valid_iff_no_errors :
    (∀ (schemas : List (String × Schema)) (doc : Json) (dt? : Option String)
       (v : Bool) (errs : List String),
       validate_document schemas doc dt? = .ok (v, errs) → (v = true ↔ errs = [])) ∧
    (∀ (schemas : List (String × Schema)) (input : FileReadResult),
       ((validate_file schemas input).1 = true ↔ (validate_file schemas input).2 = [])) ∧
    (∀ (schemas : List (String × Schema)) (resp : ApiResponse)
       (v : Bool) (errs : List String),
       validate_api_endpoint schemas resp = .ok (v, errs) → (v = true ↔ errs = [])) :=
  ⟨vd_ok_shape, validate_file_shape, validate_api_endpoint_shape⟩

/-- C4 witness: the invariant instantiated at the valid PDD document
through all three entry points. -/
theorem validation_results_valid_iff_no_errors_witness :
    (true = true ↔ ([] : List String) = []) ∧
    ((validate_file schemas0 (.parsed validPddDoc)).1 = true ↔
      (validate_file schemas0 (.parsed validPddDoc)).2 = []) ∧
    (true = true ↔ ([] : List String) = []) :=
  ⟨validation_results_valid_iff_no_errors.1 schemas0 validPddDoc none true [] (by rfl),
   validation_results_valid_iff_no_errors.2.1 schemas0 (.parsed validPddDoc),
   validation_results_valid_iff_no_errors.2.2 schemas0
     (.httpResponse 200 "OK" (.jsonData validPddDoc)) true [] (by rfl)⟩

/-- C5 (corrected, amended form): a falsy geometry value — absent,
null, or the empty object — yields the missing-geometry error; a
non-empty geometry mapping lacking `type` or `coordinates` yields
"Invalid geometry structure"; both present with a type outside the
6-member enumeration yields "Invalid geometry type: X" naming the
value.  The original claim routed the empty object to the
"invalid geometry structure" error; that is refuted by
`empty_geometry_reported_missing_not_invalid`. -/
theorem geometry_rules_amended (fs : List (String × Json)) :
    (∀ out, ((fs.lookup "geometry").getD .null).truthy = false →
       _validate_geojson_compliance (.obj fs) = .ok out →
       "Missing required geometry field" ∈ out) ∧
    (∀ gs out, fs.lookup "geometry" = some (.obj gs) → gs ≠ [] →
       ((gs.lookup "type").isNone = true ∨ (gs.lookup "coordinates").isNone = true) →
       _validate_geojson_compliance (.obj fs) = .ok out →
       "Invalid geometry structure" ∈ out) ∧
    (∀ gs t out, fs.lookup "geometry" = some (.obj gs) →
       gs.lookup "type" = some t → (gs.lookup "coordinates").isSome = true →
       validGeometryType t = false →
       _validate_geojson_compliance (.obj fs) = .ok out →
       ("Invalid geometry type: " ++ pyStrVal t) ∈ out) := by
  refine ⟨?_, ?_, ?_⟩
  · intro out hfalsy h
    obtain ⟨e2, he2, hout⟩ := geojson_output fs out h
    rw [geometry_errors_falsy _ hfalsy] at he2
    injection he2 with he2h
    subst hout
    rw [← he2h]
    exact List.mem_append_left _ (List.mem_append_right _ (by simp))
  · intro gs out hg hne hmiss h
    obtain ⟨e2, he2, hout⟩ := geojson_output fs out h
    rw [hg, Option.getD_some, geometry_errors_incomplete gs hne hmiss] at he2
    injection he2 with he2h
    subst hout
    rw [← he2h]
    exact List.mem_append_left _ (List.mem_append_right _ (by simp))
  · intro gs t out hg hT hC hbad h
    obtain ⟨e2, he2, hout⟩ := geojson_output fs out h
    rw [hg, Option.getD_some, geometry_errors_badtype gs t hT hC hbad] at he2
    injection he2 with he2h
    subst hout
    rw [← he2h]
    exact List.mem_append_left _ (List.mem_append_right _ (by simp))

/-- C5 counterexample: a present-but-empty geometry object is reported
as missing, not as "Invalid geometry structure" as the claim states. -/
theorem empty_geometry_reported_missing_not_invalid :
    _validate_geojson_compliance (.obj [("type", .str "Feature"), ("geometry", .obj [])]) =
      .ok ["Missing required geometry field"] ∧
    "Invalid geometry structure" ∉ ["Missing required geometry field"] :=
  ⟨by rfl, by decide⟩

/-- C5 witness: the three amended clauses instantiated on concrete
documents. -/
theorem geometry_rules_amended_witness :
    "Missing required geometry field" ∈
      ["Document must be a GeoJSON Feature", "Missing required geometry field"] ∧
    "Invalid geometry structure" ∈
      ["Document must be a GeoJSON Feature", "Invalid geometry structure"] ∧
    ("Invalid geometry type: " ++ pyStrVal (.str "Circle")) ∈
      ["Invalid geometry type: Circle"] :=
  ⟨(geometry_rules_amended []).1
     ["Document must be a GeoJSON Feature", "Missing required geometry field"]
     (by rfl) (by rfl),
   (geometry_rules_amended [("geometry", .obj [("type", .str "Point")])]).2.1
     [("type", .str "Point")]
     ["Document must be a GeoJSON Feature", "Invalid geometry structure"]
     rfl (List.cons_ne_nil _ _) (Or.inr (by rfl)) (by rfl),
   (geometry_rules_amended [("type", .str "Feature"), ("geometry",
     .obj [("type", .str "Circle"), ("coordinates", .arr [])])]).2.2
     [("type", .str "Circle"), ("coordinates", .arr [])] (.str "Circle")
     ["Invalid geometry type: Circle"]
     rfl rfl (by rfl) (by rfl) (by rfl)⟩

/-- C6 (confirmed): under a loaded schema the error list is the
deterministic concatenation — structural lines first, then the GeoJSON,
version, links and profile-specific checkers, in that fixed order. -/
theorem validate_document_error_order (schemas : List (String × Schema)) (doc : Json)
    (dt? : Option String) (dt : String) (schema : Schema)
    (g v l p : List String)
    (hdt : resolve_doc_type doc dt? = .ok dt)
    (hs : schemas.lookup dt = some schema)
    (hg : _validate_geojson_compliance doc = .ok g)
    (hv : _validate_ogcr_version doc = .ok v)
    (hl : _validate_links doc = .ok l)
    (hp : profile_specific_errors dt doc = .ok p) :
    validate_document schemas doc dt? =
      .ok ((schemaErrorLines schema doc ++ (g ++ v ++ l ++ p)).isEmpty,
           schemaErrorLines schema doc ++ (g ++ v ++ l ++ p)) :=
  vd_order schemas doc dt? dt schema g v l p hdt hs hg hv hl hp

/-- C6 witness: the order instantiated on a document that is invalid in
one way per checker. -/
theorem validate_document_error_order_witness :
    validate_document schemas0 (.obj multiErrorPddFields) none =
      .ok ((schemaErrorLines pddSchema (.obj multiErrorPddFields) ++
        (["Invalid geometry type: Circle"] ++
         ["Invalid ogcr_version format: abc (must be semantic version)"] ++
         ["Link 0 missing required 'rel' field", "Link 0 missing required 'href' field"] ++
         ["expected_annual_benefit must be non-negative"])).isEmpty,
        schemaErrorLines pddSchema (.obj multiErrorPddFields) ++
        (["Invalid geometry type: Circle"] ++
         ["Invalid ogcr_version format: abc (must be semantic version)"] ++
         ["Link 0 missing required 'rel' field", "Link 0 missing required 'href' field"] ++
         ["expected_annual_benefit must be non-negative"])) :=
  validate_document_error_order schemas0 (.obj multiErrorPddFields) none "pdd" pddSchema
    ["Invalid geometry type: Circle"]
    ["Invalid ogcr_version format: abc (must be semantic version)"]
    ["Link 0 missing required 'rel' field", "Link 0 missing required 'href' field"]
    ["expected_annual_benefit must be non-negative"]
    (by rfl) (by rfl) (by rfl) (by rfl) (by rfl) (by rfl)

/-- C7 (confirmed): when the resolved profile has no loaded schema,
`validate_document` returns invalid with exactly the single error
"Unknown document type: X" naming the resolved profile, and runs no
structural or semantic check. -/
theorem unknown_profile_single_error (schemas : List (String × Schema)) (doc : Json)
    (dt? : Option String) (dt : String)
    (hdt : resolve_doc_type doc dt? = .ok dt)
    (hs : schemas.lookup dt = none) :
    validate_document schemas doc dt? = .ok (false, ["Unknown document type: " ++ dt]) ∧
    (["Unknown document type: " ++ dt]).length = 1 :=
  ⟨vd_unknown schemas doc dt? dt hdt hs, rfl⟩

/-- C7 witness: the empty document resolves to the profile `unknown`,
which has no schema. -/
theorem unknown_profile_single_error_witness :
    validate_document schemas0 (.obj []) none =
      .ok (false, ["Unknown document type: " ++ "unknown"]) ∧
    (["Unknown document type: " ++ "unknown"]).length = 1 :=
  unknown_profile_single_error schemas0 (.obj []) none "unknown" (by rfl) (by rfl)

/-- C8 (corrected, amended form): on an mrv document whose
`start_date` and `end_date` are non-empty strings — when both parse,
`start >= end` produces the ordering error and `start < end` does not;
when a date fails to parse, a date-format error replaces the ordering
error.  The original claim's "fails to parse → format error" also
covered the empty string, which the code's truthiness guard skips
without any error; that is refuted by
`empty_string_date_skipped_without_error`. -/
theorem mrv_date_rules_amended (fs ps : List (String × Json)) (ss es : String)
    (hprops : fs.lookup "properties" = some (.obj ps))
    (hss : ps.lookup "start_date" = some (.str ss))
    (hes : ps.lookup "end_date" = some (.str es))
    (h1 : ss ≠ "") (h2 : es ≠ "") :
    (∀ out ks ke, _validate_mrv_specific (.obj fs) = .ok out →
       strptimeYMD ss = .ok ks → strptimeYMD es = .ok ke →
       ((ke ≤ ks → dateOrderMsg ∈ out) ∧ (ks < ke → dateOrderMsg ∉ out))) ∧
    (∀ out m, _validate_mrv_specific (.obj fs) = .ok out →
       strptimeYMD ss = .error m →
       ("Invalid date format: " ++ m) ∈ out ∧ dateOrderMsg ∉ out) ∧
    (∀ out ks m, _validate_mrv_specific (.obj fs) = .ok out →
       strptimeYMD ss = .ok ks → strptimeYMD es = .error m →
       ("Invalid date format: " ++ m) ∈ out ∧ dateOrderMsg ∉ out) := by
  refine ⟨?_, ?_, ?_⟩
  · intro out ks ke h hks hke
    obtain ⟨d2, d3, hout, hd2, hd3⟩ :=
      mrv_specific_decompose fs ps ss es out hprops hss hes h1 h2 h
    have hd1 : date_range_errors ss es = if ke ≤ ks then [dateOrderMsg] else [] := by
      unfold date_range_errors
      rw [hks, hke]
      rfl
    constructor
    · intro hord
      subst hout
      rw [hd1, if_pos hord]
      exact List.mem_append_left _ (List.mem_append_left _ (by simp))
    · intro hord
      subst hout
      rw [hd1, if_neg (by omega)]
      intro hmem
      rcases List.mem_append.mp hmem with hm | hm
      · rcases List.mem_append.mp hm with hm2 | hm2
        · simp at hm2
        · exact estimate_no_order _ _ hd2 hm2
      · exact uncertainty_no_order _ _ hd3 hm
  · intro out m h hm
    obtain ⟨d2, d3, hout, hd2, hd3⟩ :=
      mrv_specific_decompose fs ps ss es out hprops hss hes h1 h2 h
    have hd1 : date_range_errors ss es = ["Invalid date format: " ++ m] := by
      unfold date_range_errors
      rw [hm]
    subst hout
    rw [hd1]
    constructor
    · exact List.mem_append_left _ (List.mem_append_left _ (by simp))
    · intro hmem
      rcases List.mem_append.mp hmem with hmm | hmm
      · rcases List.mem_append.mp hmm with hm2 | hm2
        · simp only [List.mem_singleton] at hm2
          exact ne_of_head ("Invalid date format: " ++ m) dateOrderMsg 'I' 's'
            (head_of_append "Invalid date format: " m 'I' rfl) rfl (by decide) hm2.symm
        · exact estimate_no_order _ _ hd2 hm2
      · exact uncertainty_no_order _ _ hd3 hmm
  · intro out ks m h hks hm
    obtain ⟨d2, d3, hout, hd2, hd3⟩ :=
      mrv_specific_decompose fs ps ss es out hprops hss hes h1 h2 h
    have hd1 : date_range_errors ss es = ["Invalid date format: " ++ m] := by
      unfold date_range_errors
      rw [hks, hm]
    subst hout
    rw [hd1]
    constructor
    · exact List.mem_append_left _ (List.mem_append_left _ (by simp))
    · intro hmem
      rcases List.mem_append.mp hmem with hmm | hmm
      · rcases List.mem_append.mp hmm with hm2 | hm2
        · simp only [List.mem_singleton] at hm2
          exact ne_of_head ("Invalid date format: " ++ m) dateOrderMsg 'I' 's'
            (head_of_append "Invalid date format: " m 'I' rfl) rfl (by decide) hm2.symm
        · exact estimate_no_order _ _ hd2 hm2
      · exact uncertainty_no_order _ _ hd3 hmm

/-- C8 counterexample: an empty-string `start_date` fails to parse, yet
the checker reports nothing at all — the truthiness guard skips the
whole date block. -/
theorem empty_string_date_skipped_without_error :
    (strptimeYMD "").toOption = none ∧
    _validate_mrv_specific (.obj [("properties", .obj
      [("start_date", .str ""), ("end_date", .str "2024-01-01")])]) =
      .ok ([] : List String) :=
  ⟨by rfl, by rfl⟩

/-- C8 witness: the ordering clause instantiated on an mrv document
whose start date falls after its end date. -/
theorem mrv_date_rules_amended_witness :
    dateOrderMsg ∈ [dateOrderMsg] :=
  ((mrv_date_rules_amended lateDatesFields lateDatesProps "2024-12-31" "2024-01-01"
      rfl rfl rfl (by decide) (by decide)).1
    [dateOrderMsg] 20241231 20240101 (by rfl) (by rfl) (by rfl)).1 (by omega)

/-- C9 (corrected, amended form): on every document whose `properties`
field is absent or a mapping, detection computes exactly the spec's
pure function (`detectSpecFn`); for a non-container `properties` value
the Python membership test raises `TypeError`, refuting the original
"for every document" claim — see `detect_raises_on_numeric_properties`. -/
theorem detect_matches_spec_on_mapping_properties (fs : List (String × Json))
    (hp : (match fs.lookup "properties" with
           | none => true
           | some (.obj _) => true
           | some _ => false) = true) :
    _detect_document_type (.obj fs) = .ok (detectSpecFn fs) :=
  detect_eq_spec fs hp

/-- C9 counterexample: with `properties` the number 5, detection raises
`TypeError` (`'project_type' in 5`), while the claimed pure function
yields "unknown". -/
theorem detect_raises_on_numeric_properties :
    _detect_document_type (.obj [("properties", .num 5)]) = .error .typeError ∧
    detectSpecFn [("properties", .num 5)] = "unknown" :=
  ⟨by rfl, by rfl⟩

/-- C9 witness: fallback detection of an mrv document through the
`methodology_data` key. -/
theorem detect_matches_spec_on_mapping_properties_witness :
    _detect_document_type (.obj [("properties", .obj [("methodology_data", .null)])]) =
      .ok (detectSpecFn [("properties", .obj [("methodology_data", .null)])]) :=
  detect_matches_spec_on_mapping_properties
    [("properties", .obj [("methodology_data", .null)])] (by rfl)

/-- C10 (confirmed): validation is read-only on the document — the
state-threaded rendering of `validate_document` and of every rule
checker returns the document value unchanged whenever it returns. -/
theorem validation_preserves_document :
    (∀ (schemas : List (String × Schema)) (dt? : Option String),
       PreservesDoc (validate_document_st schemas dt?)) ∧
    PreservesDoc geojson_st ∧ PreservesDoc version_st ∧ PreservesDoc links_st ∧
    PreservesDoc pdd_st ∧ PreservesDoc mrv_st ∧ PreservesDoc detect_st :=
  ⟨preservesDoc_validate_document, preservesDoc_geojson, preservesDoc_version,
   preservesDoc_links, preservesDoc_pdd, preservesDoc_mrv, preservesDoc_detect⟩

/-- C10 witness: the valid PDD document comes back unchanged from a
full validation run. -/
theorem validation_preserves_document_witness :
    validate_document_st schemas0 none validPddDoc = .ok ((true, []), validPddDoc) ∧
    validPddDoc = validPddDoc :=
  ⟨by rfl,
   validation_preserves_document.1 schemas0 none validPddDoc (true, []) validPddDoc (by rfl)⟩

end OGCR
